import Mathlib

/-!
Shallow embedding of the GLSL program linker
(`src/mesalib/src/amd/vulkan/radv_shader_info.c`) and proofs about its
diagnostic, validation and location-allocation behaviour.

Conventions: C `unsigned` arithmetic is modelled with `Nat` (masking with
`% 2 ^ 32` where overflow matters), fallible paths return explicit results,
and the variadic printf-style diagnostics are modelled by passing the fully
formatted message string.
-/

namespace Linker

/-- Storage modes of `ir_variable::data.mode` (subset used by the linker). -/
inductive VarMode where
  | shaderIn
  | shaderOut
  | uniform
  | shaderStorage
  | temporary
  | auto
deriving DecidableEq, Repr

/-- GLSL type model: a base type carries the scalar base-type id, the vector
element count, whether it (transitively, for `base`) is a subroutine type, a
record (struct) type or an atomic counter type, and its name; an array type
carries the element type and its length (`0` = implicitly sized / unsized). -/
inductive GlslType where
  | base (btype : Nat) (vecElems : Nat) (isSub : Bool) (isRec : Bool)
      (isAtomic : Bool) (tname : String)
  | array (elem : GlslType) (len : Nat)
deriving DecidableEq, Repr

namespace GlslType

/-- `glsl_type::contains_subroutine()` -/
def contains_subroutine : GlslType → Bool
  | base _ _ isSub _ _ _ => isSub
  | array elem _ => elem.contains_subroutine

/-- `glsl_type::contains_atomic()` -/
def contains_atomic : GlslType → Bool
  | base _ _ _ _ isAtomic _ => isAtomic
  | array elem _ => elem.contains_atomic

/-- `glsl_type::is_array()` -/
def is_array : GlslType → Bool
  | base _ _ _ _ _ _ => false
  | array _ _ => true

/-- `glsl_type::is_record()` -/
def is_record : GlslType → Bool
  | base _ _ _ isRec _ _ => isRec
  | array _ _ => false

/-- `glsl_type::fields.array` (element type of an array; arbitrary on a
non-array, which the code never consults). -/
def fields_array : GlslType → GlslType
  | base b v s r a n => base b v s r a n
  | array elem _ => elem

/-- `glsl_type::length` (array length; `0` for unsized). -/
def length : GlslType → Nat
  | base _ _ _ _ _ _ => 0
  | array _ len => len

/-- `glsl_type::name` -/
def type_name : GlslType → String
  | base _ _ _ _ _ n => n
  | array elem len => elem.type_name ++ "[" ++ toString len ++ "]"

/-- `glsl_type::gl_type`, the API enum of the underlying type: arrays expose
the element's enum, so a sized and an unsized array of the same element agree. -/
def gl_type : GlslType → Nat
  | base b v _ _ _ _ => b * 16 + v
  | array elem _ => elem.gl_type

/-- `glsl_type::record_compare()`: structural comparison of two record types.
In this embedding types are values, so structural equality is type equality. -/
def record_compare (a b : GlslType) : Bool := a == b

/-- `glsl_type::without_array()` -/
def without_array : GlslType → GlslType
  | base b v s r a n => base b v s r a n
  | array elem _ => elem.without_array

/-- `glsl_type::base_type` (scalar base-type id of a base type). -/
def base_type : GlslType → Nat
  | base b _ _ _ _ _ => b
  | array elem _ => elem.base_type

/-- `glsl_type::vector_elements` -/
def vector_elements : GlslType → Nat
  | base _ v _ _ _ _ => v
  | array elem _ => elem.vector_elements

end GlslType

/-- Model of `ir_variable`: the name, type, mode and the `ir_variable::data`
fields the linker reads or writes.  Constant initializers are modelled as
an optional value (`has_value` becomes value equality). -/
structure IrVariable where
  name : String
  vtype : GlslType
  mode : VarMode
  explicit_location : Bool
  location : Int
  location_frac : Nat
  explicit_binding : Bool
  binding : Nat
  offset : Nat
  depth_layout : Nat
  used : Bool
  invariant : Bool
  centroid : Bool
  sample : Bool
  image_format : Nat
  max_array_access : Int
  has_initializer : Bool
  constant_initializer : Option Nat
  from_ssbo_unsized_array : Bool
  index : Nat
  is_unmatched_generic_inout : Bool
  interface_instance : Bool
deriving DecidableEq, Repr

/-- `ir_variable::is_interface_instance()` -/
def IrVariable.is_interface_instance (v : IrVariable) : Bool :=
  v.interface_instance

/-- One record of `gl_program_resource`: the kind tag, the backing data
pointer (modelled as a pointer identity number) and the stage-usage mask. -/
structure GlProgramResource where
  rtype : Nat
  rdata : Nat
  stageReferences : Nat
deriving DecidableEq, Repr

/-- Model of the fields of `gl_shader_program` that the claims touch:
the info log, the link status, the language version/profile and the program
resource list. -/
structure GlShaderProgram where
  infoLog : String
  linkStatus : Bool
  version : Nat
  isES : Bool
  programResourceList : List GlProgramResource
deriving DecidableEq, Repr

/-- `linker_error`: appends "error: " and the message to the info log and
clears `LinkStatus`. -/
def linker_error (prog : GlShaderProgram) (msg : String) : GlShaderProgram :=
  { prog with
    infoLog := prog.infoLog ++ "error: " ++ msg
    linkStatus := false }

/-- `linker_warning`: appends "warning: " and the message to the info log and
leaves `LinkStatus` unchanged. -/
def linker_warning (prog : GlShaderProgram) (msg : String) : GlShaderProgram :=
  { prog with
    infoLog := prog.infoLog ++ "warning: " ++ msg }

/-- One signature of an `ir_function`: its formal parameter types (as names)
and the `is_defined` / `is_builtin` flags the linker consults. -/
structure IrFuncSig where
  params : List String
  is_defined : Bool
  is_builtin : Bool
deriving DecidableEq, Repr

/-- Model of `ir_function`: a name and its signatures. -/
structure IrFunction where
  fname : String
  sigs : List IrFuncSig
deriving DecidableEq, Repr

/-- A top-level node of a shader's `ir` instruction list.  The hierarchical
visitors of the source reduce, for the linker's purposes, to scanning for
variable declarations, function declarations and writes to a named variable
(`ir_assignment` left-hand sides and `out`/`inout` call arguments are both
writes; `assignTo` covers either). -/
inductive IrNode where
  | var (v : IrVariable)
  | func (f : IrFunction)
  | assignTo (lhsName : String)
  | derefVar (vname : String)
  | other
deriving DecidableEq, Repr

/-- One `gl_uniform_block`: its name, its member definition (member names and
types, standing for the full structural layout) and the stage-usage mask. -/
structure GlUniformBlock where
  bname : String
  fieldsDef : List (String × GlslType)
  stageref : Nat
deriving DecidableEq, Repr

/-- Model of `gl_shader`: its stage, its `ir` list and its per-stage uniform
and shader-storage block lists. -/
structure GlShader where
  stage : Nat
  ir : List IrNode
  uniformBlocks : List GlUniformBlock
  shaderStorageBlocks : List GlUniformBlock
deriving DecidableEq, Repr

/-- Model of the fields of `gl_context` the claims touch. -/
structure GlContext where
  maxClipPlanes : Nat
deriving DecidableEq, Repr

/-- `find_assignment_visitor(name).run(ir); variable_found()`: whether the
instruction list contains a write to the variable of that name. -/
def find_assignment (vname : String) (ir : List IrNode) : Bool :=
  ir.any fun n =>
    match n with
    | .assignTo lhs => lhs == vname
    | _ => false

/-- `shader->symbols->get_variable(name)`: first declared variable of that
name in the shader's instruction list. -/
def get_variable (ir : List IrNode) (vname : String) : Option IrVariable :=
  ir.findSome? fun n =>
    match n with
    | .var v => if v.name == vname then some v else none
    | _ => none

/-- Modelled from the spec: `_mesa_shader_stage_to_string` is defined outside
this excerpt; the spec's stage set (vertex, tessellation-control,
tessellation-evaluation, geometry, fragment, compute) maps to the stage
indices in that pipeline order. -/
def shader_stage_to_string : Nat → String
  | 0 => "vertex"
  | 1 => "tess ctrl"
  | 2 => "tess eval"
  | 3 => "geometry"
  | 4 => "fragment"
  | _ => "compute"

/-- C9: `linker_error` appends to the log and clears LinkStatus;
`linker_warning` appends to the log and leaves LinkStatus unchanged; neither
removes or rewrites earlier log content (both yield the old log plus a
suffix). -/
theorem linker_error_warning_append_only (prog : GlShaderProgram) (msg : String) :
    ((linker_error prog msg).linkStatus = false ∧
      ∃ s, (linker_error prog msg).infoLog = prog.infoLog ++ s) ∧
    ((linker_warning prog msg).linkStatus = prog.linkStatus ∧
      ∃ s, (linker_warning prog msg).infoLog = prog.infoLog ++ s) := by
  refine ⟨⟨rfl, ⟨"error: " ++ msg, ?_⟩⟩, ⟨rfl, ⟨"warning: " ++ msg, ?_⟩⟩⟩
  · simp [linker_error, String.append_assoc]
  · simp [linker_warning, String.append_assoc]

/-- `analyze_clip_cull_usage`: checks incorrect combined usage of
`gl_ClipVertex`, `gl_ClipDistance` and `gl_CullDistance` and the combined
size limit.  Returns the updated program and the clip/cull distance array
sizes it writes through its out-parameters (`none` when it returns before
writing is impossible here: the source writes the zeros first). -/
def analyze_clip_cull_usage (prog : GlShaderProgram) (sh : GlShader)
    (ctx : GlContext) : GlShaderProgram × Nat × Nat :=
  if prog.version ≥ (if prog.isES then 300 else 130) then
    let clip_distance := find_assignment "gl_ClipDistance" sh.ir
    let cull_distance := find_assignment "gl_CullDistance" sh.ir
    let clip_vertex := ¬prog.isES && find_assignment "gl_ClipVertex" sh.ir
    if clip_vertex && clip_distance then
      (linker_error prog (shader_stage_to_string sh.stage ++
        " shader writes to both `gl_ClipVertex' and `gl_ClipDistance'\n"),
       0, 0)
    else if clip_vertex && cull_distance then
      (linker_error prog (shader_stage_to_string sh.stage ++
        " shader writes to both `gl_ClipVertex' and `gl_CullDistance'\n"),
       0, 0)
    else
      -- the source asserts the variable exists when an assignment was found
      let clip_size := if clip_distance then
        ((get_variable sh.ir "gl_ClipDistance").map
          (fun v => v.vtype.length)).getD 0 else 0
      let cull_size := if cull_distance then
        ((get_variable sh.ir "gl_CullDistance").map
          (fun v => v.vtype.length)).getD 0 else 0
      if clip_size + cull_size > ctx.maxClipPlanes then
        (linker_error prog (shader_stage_to_string sh.stage ++
          " shader: the combined size of 'gl_ClipDistance' and" ++
          " 'gl_CullDistance' size cannot be larger than" ++
          " gl_MaxCombinedClipAndCullDistances (" ++
          toString ctx.maxClipPlanes ++ ")"),
         clip_size, cull_size)
      else
        (prog, clip_size, cull_size)
  else
    (prog, 0, 0)

/-- `validate_vertex_shader_executable`: for language versions below 140
(desktop) / 300 (ES), a vertex shader that never writes `gl_Position` gets a
hard error on desktop and a warning on ES; otherwise clip/cull usage is
analyzed.  The pair of Nats is the clip/cull sizes the source stores into
`prog->Vert`; `none` when the source returns before writing them. -/
def validate_vertex_shader_executable (prog : GlShaderProgram)
    (shader : Option GlShader) (ctx : GlContext) :
    GlShaderProgram × Option (Nat × Nat) :=
  match shader with
  | none => (prog, none)
  | some sh =>
    if prog.version < (if prog.isES then 300 else 140) then
      if !(find_assignment "gl_Position" sh.ir) then
        if prog.isES then
          (linker_warning prog ("vertex shader does not write to" ++
            " `gl_Position'.It's value is undefined. \n"), none)
        else
          (linker_error prog
            "vertex shader does not write to `gl_Position'. \n", none)
      else
        let r := analyze_clip_cull_usage prog sh ctx
        (r.1, some r.2)
    else
      let r := analyze_clip_cull_usage prog sh ctx
      (r.1, some r.2)

/-- `validate_fragment_shader_executable`: errors when the shader writes both
`gl_FragColor` and `gl_FragData`. -/
def validate_fragment_shader_executable (prog : GlShaderProgram)
    (shader : Option GlShader) : GlShaderProgram :=
  match shader with
  | none => prog
  | some sh =>
    let frag_color := find_assignment "gl_FragColor" sh.ir
    let frag_data := find_assignment "gl_FragData" sh.ir
    if frag_color && frag_data then
      linker_error prog
        "fragment shader writes to both `gl_FragColor' and `gl_FragData'\n"
    else
      prog

/-- C4 counterexample: in an ES program of (old) version 1.00, a vertex
shader that never writes `gl_Position` does NOT make the link fail — only a
warning is appended and LinkStatus stays set — refuting the claim that the
link fails with a hard error for older shading-language versions. -/
theorem unwritten_position_es_counterexample :
    (validate_vertex_shader_executable
      ⟨"", true, 100, true, []⟩ (some ⟨0, [], [], []⟩) ⟨8⟩).1.linkStatus = true ∧
    (validate_vertex_shader_executable
      ⟨"", true, 100, true, []⟩ (some ⟨0, [], [], []⟩) ⟨8⟩).1.infoLog =
      "warning: vertex shader does not write to" ++
        " `gl_Position'.It's value is undefined. \n" := by
  constructor
  · rfl
  · rfl

/-- C4 (amended): when a vertex shader never writes `gl_Position`, programs
of older language versions fail with a hard error only on desktop profiles
(version below 140, non-ES); older ES programs (version below 300) get only a
warning, LinkStatus unchanged; for newer versions the position check emits
nothing and the result is exactly that of the clip/cull analysis. -/
theorem unwritten_position_policy_amended (prog : GlShaderProgram)
    (sh : GlShader) (ctx : GlContext)
    (hpos : find_assignment "gl_Position" sh.ir = false) :
    (prog.isES = false → prog.version < 140 →
      validate_vertex_shader_executable prog (some sh) ctx =
        (linker_error prog
          "vertex shader does not write to `gl_Position'. \n", none)) ∧
    (prog.isES = true → prog.version < 300 →
      validate_vertex_shader_executable prog (some sh) ctx =
        (linker_warning prog ("vertex shader does not write to" ++
          " `gl_Position'.It's value is undefined. \n"), none) ∧
      (validate_vertex_shader_executable prog (some sh) ctx).1.linkStatus =
        prog.linkStatus) ∧
    ((if prog.isES then 300 else 140) ≤ prog.version →
      validate_vertex_shader_executable prog (some sh) ctx =
        ((analyze_clip_cull_usage prog sh ctx).1,
         some (analyze_clip_cull_usage prog sh ctx).2)) := by
  refine ⟨?_, ?_, ?_⟩
  · intro hes hv
    simp [validate_vertex_shader_executable, hes, hv, hpos]
  · intro hes hv
    constructor
    · simp [validate_vertex_shader_executable, hes, hv, hpos]
    · simp [validate_vertex_shader_executable, hes, hv, hpos, linker_warning]
  · intro hv
    have : ¬ prog.version < (if prog.isES then 300 else 140) := by
      omega
    simp [validate_vertex_shader_executable, this]

/-- C4 witness: the amended theorem applied to a concrete old-ES program with
an empty vertex shader: only a warning, LinkStatus survives. -/
theorem unwritten_position_policy_amended_witness :
    validate_vertex_shader_executable
      ⟨"", true, 100, true, []⟩ (some ⟨0, [], [], []⟩) ⟨8⟩ =
      (linker_warning ⟨"", true, 100, true, []⟩
        ("vertex shader does not write to" ++
          " `gl_Position'.It's value is undefined. \n"), none) ∧
    (validate_vertex_shader_executable
      ⟨"", true, 100, true, []⟩ (some ⟨0, [], [], []⟩) ⟨8⟩).1.linkStatus = true := by
  have h := (unwritten_position_policy_amended
    ⟨"", true, 100, true, []⟩ ⟨0, [], [], []⟩ ⟨8⟩ (by decide)).2.1 rfl (by decide)
  exact ⟨h.1, h.2⟩

/-- C6: a fragment stage writing both `gl_FragColor` and `gl_FragData` fails
validation with the "writes to both" diagnostic and a cleared LinkStatus;
writing at most one of the two leaves the program untouched (the diagnostic
is never emitted). -/
theorem fragment_dual_color_write_error (prog : GlShaderProgram)
    (sh : GlShader) :
    (find_assignment "gl_FragColor" sh.ir = true →
      find_assignment "gl_FragData" sh.ir = true →
      (validate_fragment_shader_executable prog (some sh)).linkStatus = false ∧
      (validate_fragment_shader_executable prog (some sh)).infoLog =
        prog.infoLog ++ "error: " ++
        "fragment shader writes to both `gl_FragColor' and `gl_FragData'\n") ∧
    ((find_assignment "gl_FragColor" sh.ir &&
        find_assignment "gl_FragData" sh.ir) = false →
      validate_fragment_shader_executable prog (some sh) = prog) := by
  constructor
  · intro hc hd
    simp [validate_fragment_shader_executable, hc, hd, linker_error]
  · intro h
    simp [validate_fragment_shader_executable, h]

/-- C6 witness: a concrete fragment shader writing both outputs is rejected,
and one writing only `gl_FragColor` is untouched. -/
theorem fragment_dual_color_write_error_witness :
    (validate_fragment_shader_executable
      ⟨"", true, 110, false, []⟩
      (some ⟨4, [.assignTo "gl_FragColor", .assignTo "gl_FragData"], [], []⟩)).linkStatus
      = false ∧
    validate_fragment_shader_executable
      ⟨"", true, 110, false, []⟩ (some ⟨4, [.assignTo "gl_FragColor"], [], []⟩) =
      ⟨"", true, 110, false, []⟩ := by
  constructor
  · exact (fragment_dual_color_write_error ⟨"", true, 110, false, []⟩
      ⟨4, [.assignTo "gl_FragColor", .assignTo "gl_FragData"], [], []⟩).1
      (by decide) (by decide) |>.1
  · exact (fragment_dual_color_write_error ⟨"", true, 110, false, []⟩
      ⟨4, [.assignTo "gl_FragColor"], [], []⟩).2 (by decide)

/-- `add_program_resource`: appends a resource record to the program's
resource list unless a record with the same backing `Data` pointer is already
present, in which case the list is left unchanged and success is reported.
(The source's out-of-memory branch cannot occur in this model: allocation
always succeeds.) -/
def add_program_resource (prog : GlShaderProgram) (rtype rdata stages : Nat) :
    GlShaderProgram × Bool :=
  if prog.programResourceList.any (fun r => r.rdata == rdata) then
    (prog, true)
  else
    ({ prog with programResourceList :=
        prog.programResourceList ++ [⟨rtype, rdata, stages⟩] }, true)

/-- C8: adding a resource whose backing data pointer is already in the list
leaves the program unchanged and reports success, and `add_program_resource`
preserves the no-duplicate-backing-pointer invariant of the registry. -/
theorem program_resource_dedup (prog : GlShaderProgram)
    (rtype rdata stages : Nat) :
    ((prog.programResourceList.any (fun r => r.rdata == rdata)) = true →
      add_program_resource prog rtype rdata stages = (prog, true)) ∧
    ((prog.programResourceList.map (fun r => r.rdata)).Nodup →
      (((add_program_resource prog rtype rdata stages).1.programResourceList.map
        (fun r => r.rdata))).Nodup) := by
  constructor
  · intro h
    simp [add_program_resource, h]
  · intro h
    by_cases hc : (prog.programResourceList.any (fun r => r.rdata == rdata)) = true
    · simp [add_program_resource, hc, h]
    · have hnotin : rdata ∉ prog.programResourceList.map (fun r => r.rdata) := by
        intro hmem
        apply hc
        rw [List.any_eq_true]
        rcases List.mem_map.mp hmem with ⟨r, hr, hrd⟩
        exact ⟨r, hr, by simp [hrd]⟩
      simp [add_program_resource, hc, List.nodup_append, h, hnotin]

/-- C8 witness: with a registry already holding backing pointer 7, adding
pointer 7 again changes nothing and succeeds; the no-duplicates invariant is
preserved. -/
theorem program_resource_dedup_witness :
    add_program_resource ⟨"", true, 110, false, [⟨1, 7, 1⟩]⟩ 2 7 4 =
      (⟨"", true, 110, false, [⟨1, 7, 1⟩]⟩, true) ∧
    ((((add_program_resource ⟨"", true, 110, false, [⟨1, 7, 1⟩]⟩
      2 7 4).1).programResourceList.map (fun r => r.rdata))).Nodup := by
  constructor
  · exact (program_resource_dedup ⟨"", true, 110, false, [⟨1, 7, 1⟩]⟩ 2 7 4).1
      (by decide)
  · exact (program_resource_dedup ⟨"", true, 110, false, [⟨1, 7, 1⟩]⟩ 2 7 4).2
      (by decide)

/-- Modelled from the spec: `mode_string` (defined outside this excerpt)
names a variable's storage mode inside diagnostics. -/
def mode_string (v : IrVariable) : String :=
  match v.mode with
  | .shaderIn => "shader input"
  | .shaderOut => "shader output"
  | .uniform => "uniform"
  | .shaderStorage => "buffer"
  | .temporary => "temporary"
  | .auto => "global"

/-- `validate_intrastage_arrays`: two array types are "the same" when they
have the same element type and one of them is implicitly sized; the
explicitly sized one wins (and a too-small size versus the recorded maximum
access is an error that does not abort the caller).  Returns the updated
program, the updated `existing` variable and whether the types matched. -/
def validate_intrastage_arrays (prog : GlShaderProgram)
    (var existing : IrVariable) : GlShaderProgram × IrVariable × Bool :=
  if var.vtype.is_array && existing.vtype.is_array then
    if var.vtype.fields_array == existing.vtype.fields_array &&
        (var.vtype.length == 0 || existing.vtype.length == 0) then
      if var.vtype.length ≠ 0 then
        let prog :=
          if (var.vtype.length : Int) ≤ existing.max_array_access then
            linker_error prog (mode_string var ++ " `" ++ var.name ++
              "' declared as type `" ++ var.vtype.type_name ++
              "' but outermost dimension has an index of `" ++
              toString existing.max_array_access ++ "'\n")
          else prog
        (prog, { existing with vtype := var.vtype }, true)
      else if existing.vtype.length ≠ 0 then
        let prog :=
          if (existing.vtype.length : Int) ≤ var.max_array_access &&
              !existing.from_ssbo_unsized_array then
            linker_error prog (mode_string var ++ " `" ++ var.name ++
              "' declared as type `" ++ existing.vtype.type_name ++
              "' but outermost dimension has an index of `" ++
              toString var.max_array_access ++ "'\n")
          else prog
        (prog, existing, true)
      else
        (prog, existing, false)
    else
      if existing.vtype.fields_array.is_record &&
          var.vtype.fields_array.is_record &&
          existing.vtype.fields_array.record_compare var.vtype.fields_array then
        (prog, existing, true)
      else
        (prog, existing, false)
  else
    (prog, existing, false)

/-- The symbol table of `cross_validate_globals`, with its lookup, insert and
replace operations (names are unique at global scope). -/
def table_get (t : List IrVariable) (n : String) : Option IrVariable :=
  t.find? (fun v => v.name == n)

/-- `glsl_symbol_table::add_variable` -/
def table_add (t : List IrVariable) (v : IrVariable) : List IrVariable :=
  t ++ [v]

/-- `glsl_symbol_table::replace_variable` (and, equally, the in-place
mutation of a variable already in the table). -/
def table_replace (t : List IrVariable) (n : String) (v : IrVariable) :
    List IrVariable :=
  t.map (fun e => if e.name == n then v else e)

/-- State threaded through `cross_validate_globals`: the program (log and
status) and the symbol table of globals seen so far. -/
structure CvgState where
  prog : GlShaderProgram
  table : List IrVariable
deriving DecidableEq, Repr

/-- Type agreement step of `cross_validate_globals` (interface-block
instances are exempt; array unification and record comparison are tried
before the shader-storage unsized-array compatibility escape). -/
def cvp_step_type (prog : GlShaderProgram) (var existing : IrVariable) :
    Except GlShaderProgram (GlShaderProgram × IrVariable) :=
  if var.vtype ≠ existing.vtype && !var.is_interface_instance then
    match validate_intrastage_arrays prog var existing with
    | (prog, existing, true) => .ok (prog, existing)
    | (prog, existing, false) =>
      if var.vtype.is_record && existing.vtype.is_record &&
          existing.vtype.record_compare var.vtype then
        .ok (prog, { existing with vtype := var.vtype })
      else if !(var.mode == VarMode.shaderStorage &&
          var.from_ssbo_unsized_array &&
          existing.mode == VarMode.shaderStorage &&
          existing.from_ssbo_unsized_array &&
          var.vtype.gl_type == existing.vtype.gl_type) then
        .error (linker_error prog (mode_string var ++ " `" ++ var.name ++
          "' declared as type `" ++ var.vtype.type_name ++
          "' and type `" ++ existing.vtype.type_name ++ "'\n"))
      else
        .ok (prog, existing)
  else
    .ok (prog, existing)

/-- Explicit-location agreement step: differing explicit locations or
components are errors; an explicit location on either side propagates. -/
def cvp_step_location (prog : GlShaderProgram) (var existing : IrVariable) :
    Except GlShaderProgram (IrVariable × IrVariable) :=
  if var.explicit_location then
    if existing.explicit_location && var.location ≠ existing.location then
      .error (linker_error prog ("explicit locations for " ++
        mode_string var ++ " `" ++ var.name ++ "' have differing values\n"))
    else if var.location_frac ≠ existing.location_frac then
      .error (linker_error prog ("explicit components for " ++
        mode_string var ++ " `" ++ var.name ++ "' have differing values\n"))
    else
      .ok (var, { existing with
        location := var.location
        explicit_location := true })
  else
    if existing.explicit_location then
      .ok ({ var with
        location := existing.location
        explicit_location := true }, existing)
    else
      .ok (var, existing)

/-- Explicit-binding agreement step: differing explicit bindings on the same
name are an error; a binding on only some declarations propagates. -/
def cvp_step_binding (prog : GlShaderProgram) (var existing : IrVariable) :
    Except GlShaderProgram IrVariable :=
  if var.explicit_binding then
    if existing.explicit_binding && var.binding ≠ existing.binding then
      .error (linker_error prog ("explicit bindings for " ++
        mode_string var ++ " `" ++ var.name ++ "' have differing values\n"))
    else
      .ok { existing with
        binding := var.binding
        explicit_binding := true }
  else
    .ok existing

/-- `gl_FragDepth` layout-qualifier agreement (two diagnostics that do not
abort the scan). -/
def cvp_step_fragdepth (prog : GlShaderProgram) (var existing : IrVariable) :
    GlShaderProgram :=
  if var.name == "gl_FragDepth" then
    let layout_declared := var.depth_layout ≠ 0
    let layout_differs := var.depth_layout ≠ existing.depth_layout
    let prog :=
      if layout_declared && layout_differs then
        linker_error prog ("All redeclarations of gl_FragDepth in all " ++
          "fragment shaders in a single program must have " ++
          "the same set of qualifiers.\n")
      else prog
    if var.used && layout_differs then
      linker_error prog ("If gl_FragDepth is redeclared with a layout " ++
        "qualifier in any fragment shader, it must be " ++
        "redeclared with the same layout qualifier in " ++
        "all fragment shaders that have assignments to " ++
        "gl_FragDepth\n")
    else prog
  else prog

/-- Constant-initializer agreement step.  The returned flag says whether the
table entry is replaced by the new declaration (an initializer-less first
sighting replaced by a later initialized one). -/
def cvp_step_initializer (prog : GlShaderProgram) (var existing : IrVariable) :
    Except GlShaderProgram Bool :=
  match var.constant_initializer, existing.constant_initializer with
  | some vi, some ei =>
    if vi ≠ ei then
      .error (linker_error prog ("initializers for " ++ mode_string var ++
        " `" ++ var.name ++ "' have differing values\n"))
    else
      .ok false
  | some _, none => .ok true
  | none, _ => .ok false

/-- Remaining agreement steps: multiple non-constant initializers and the
invariant / centroid / sample / image-format qualifiers. -/
def cvp_step_quals (prog : GlShaderProgram) (var existing : IrVariable) :
    Except GlShaderProgram Unit :=
  if var.has_initializer && existing.has_initializer &&
      (var.constant_initializer == none ||
        existing.constant_initializer == none) then
    .error (linker_error prog ("shared global variable `" ++ var.name ++
      "' has multiple non-constant initializers.\n"))
  else if existing.invariant ≠ var.invariant then
    .error (linker_error prog ("declarations for " ++ mode_string var ++
      " `" ++ var.name ++ "' have mismatching invariant qualifiers\n"))
  else if existing.centroid ≠ var.centroid then
    .error (linker_error prog ("declarations for " ++ mode_string var ++
      " `" ++ var.name ++ "' have mismatching centroid qualifiers\n"))
  else if existing.sample ≠ var.sample then
    .error (linker_error prog ("declarations for " ++ mode_string var ++
      " `" ++ var.name ++ "` have mismatching sample qualifiers\n"))
  else if existing.image_format ≠ var.image_format then
    .error (linker_error prog ("declarations for " ++ mode_string var ++
      " `" ++ var.name ++ "` have mismatching image format qualifiers\n"))
  else
    .ok ()

/-- Validation of one new declaration `var` against the `existing` table
entry of the same name, in source order: types, explicit locations, explicit
bindings, atomic offsets, `gl_FragDepth` layout, initializers, remaining
qualifiers; an `.error` is the early return of `cross_validate_globals`. -/
def cross_validate_pair (prog : GlShaderProgram) (table : List IrVariable)
    (var existing : IrVariable) : Except GlShaderProgram CvgState :=
  match cvp_step_type prog var existing with
  | .error p => .error p
  | .ok (prog, existing) =>
    match cvp_step_location prog var existing with
    | .error p => .error p
    | .ok (var, existing) =>
      match cvp_step_binding prog var existing with
      | .error p => .error p
      | .ok existing =>
        if var.vtype.contains_atomic && var.offset ≠ existing.offset then
          .error (linker_error prog ("offset specifications for " ++
            mode_string var ++ " `" ++ var.name ++
            "' have differing values\n"))
        else
          let prog := cvp_step_fragdepth prog var existing
          match cvp_step_initializer prog var existing with
          | .error p => .error p
          | .ok replaced =>
            match cvp_step_quals prog var existing with
            | .error p => .error p
            | .ok _ =>
              .ok ⟨prog,
                if replaced then table_replace table var.name var
                else table_replace table var.name existing⟩

/-- One iteration of the inner loop of `cross_validate_globals`: skip
subroutine-typed and globally scoped temporary declarations (and, in
uniforms-only mode, everything that is neither a uniform nor buffer
variable); otherwise validate against or add to the table. -/
def cross_validate_var (uniforms_only : Bool) (st : CvgState)
    (var : IrVariable) : Except GlShaderProgram CvgState :=
  if uniforms_only && !(var.mode == VarMode.uniform ||
      var.mode == VarMode.shaderStorage) then
    .ok st
  else if var.vtype.contains_subroutine then
    .ok st
  else if var.mode == VarMode.temporary then
    .ok st
  else
    match table_get st.table var.name with
    | none => .ok ⟨st.prog, table_add st.table var⟩
    | some existing => cross_validate_pair st.prog st.table var existing

/-- The variable declarations of a (possibly absent) shader's instruction
list, in order (`node->as_variable()` filtering). -/
def shader_variables (sh : Option GlShader) : List IrVariable :=
  match sh with
  | none => []
  | some s => s.ir.filterMap fun n =>
      match n with
      | .var v => some v
      | _ => none

/-- Main loop of `cross_validate_globals`; also returns the final symbol
table, whose entries model the merged variables the source mutates in
place. -/
def cross_validate_globals_go (uniforms_only : Bool) :
    CvgState → List IrVariable → GlShaderProgram × List IrVariable
  | st, [] => (st.prog, st.table)
  | st, v :: rest =>
    match cross_validate_var uniforms_only st v with
    | .ok st => cross_validate_globals_go uniforms_only st rest
    | .error p => (p, [])

/-- `cross_validate_globals`: validates the global declarations of all
shaders of the list against each other (the program is the observable
result; `cross_validate_globals_go` additionally exposes the merged table). -/
def cross_validate_globals (prog : GlShaderProgram)
    (shader_list : List (Option GlShader)) (uniforms_only : Bool) :
    GlShaderProgram :=
  (cross_validate_globals_go uniforms_only ⟨prog, []⟩
    (shader_list.flatMap shader_variables)).1

/-- C5: two units of one stage declaring the same uniform with differing
explicit bindings fail cross-validation with a "differing values" diagnostic
naming the variable; when only the later declaration carries an explicit
binding, the binding propagates to the merged table entry and no error is
raised. -/
theorem uniform_binding_cross_validation (prog : GlShaderProgram)
    (v : IrVariable) (b1 b2 : Nat) (stg : Nat)
    (hmode : v.mode = VarMode.uniform)
    (hsub : v.vtype.contains_subroutine = false)
    (hinit : v.has_initializer = false)
    (hconst : v.constant_initializer = none)
    (hb : b1 ≠ b2) :
    (cross_validate_globals prog
      [some ⟨stg, [.var { v with explicit_binding := true, binding := b1 }],
        [], []⟩,
       some ⟨stg, [.var { v with explicit_binding := true, binding := b2 }],
        [], []⟩] false).linkStatus = false ∧
    (cross_validate_globals prog
      [some ⟨stg, [.var { v with explicit_binding := true, binding := b1 }],
        [], []⟩,
       some ⟨stg, [.var { v with explicit_binding := true, binding := b2 }],
        [], []⟩] false).infoLog =
      prog.infoLog ++ "error: " ++ ("explicit bindings for uniform `" ++
        v.name ++ "' have differing values\n") ∧
    cross_validate_globals_go false ⟨prog, []⟩
      [{ v with explicit_binding := false },
       { v with explicit_binding := true, binding := b2 }] =
      (prog, [{ v with explicit_binding := true, binding := b2 }]) := by
  obtain ⟨nm, ty, md, el, loc, lf, eb, bd, off, dl, us, inv, cen, sam, imf,
    maa, hini, ci, fs, idx, unm, ii⟩ := v
  simp only [IrVariable.mode] at hmode
  simp only [IrVariable.vtype] at hsub
  simp only [IrVariable.has_initializer] at hinit
  simp only [IrVariable.constant_initializer] at hconst
  subst hmode hinit hconst
  have hb' : ¬ (b2 = b1) := fun h => hb h.symm
  refine ⟨?_, ?_, ?_⟩ <;>
  cases el <;>
  simp [cross_validate_globals, cross_validate_globals_go, shader_variables,
    cross_validate_var, cross_validate_pair, cvp_step_type, cvp_step_location,
    cvp_step_binding, cvp_step_fragdepth, cvp_step_initializer,
    cvp_step_quals, table_get, table_add, table_replace, mode_string,
    linker_error, hsub, hb', IrVariable.is_interface_instance,
    String.append_assoc]

/-- C5 witness: two vertex units declaring `uniform vec4 color` with
bindings 1 and 2 fail the link. -/
theorem uniform_binding_cross_validation_witness :
    (cross_validate_globals ⟨"", true, 110, false, []⟩
      [some ⟨0, [.var ⟨"color", GlslType.base 0 4 false false false "vec4",
        VarMode.uniform, false, -1, 0, true, 1, 0, 0, false, false, false,
        false, 0, -1, false, none, false, 0, true, false⟩], [], []⟩,
       some ⟨0, [.var ⟨"color", GlslType.base 0 4 false false false "vec4",
        VarMode.uniform, false, -1, 0, true, 2, 0, 0, false, false, false,
        false, 0, -1, false, none, false, 0, true, false⟩], [], []⟩]
      false).linkStatus = false :=
  (uniform_binding_cross_validation ⟨"", true, 110, false, []⟩
    ⟨"color", GlslType.base 0 4 false false false "vec4", VarMode.uniform,
      false, -1, 0, false, 0, 0, 0, false, false, false, false, 0, -1, false,
      none, false, 0, true, false⟩ 1 2 0 rfl rfl rfl rfl (by decide)).1

/-- Whether a top-level IR node takes part in `cross_validate_globals`:
variable declarations whose type contains a subroutine, or whose mode is
temporary, are skipped entirely. -/
def cvg_participates : IrNode → Bool
  | .var v => !(v.vtype.contains_subroutine || v.mode == VarMode.temporary)
  | _ => true

/-- Skipped declarations leave the scan state untouched. -/
theorem cross_validate_var_skip (uo : Bool) (st : CvgState) (v : IrVariable)
    (h : cvg_participates (.var v) = false) :
    cross_validate_var uo st v = .ok st := by
  simp only [cvg_participates, Bool.not_eq_false', Bool.or_eq_true,
    beq_iff_eq] at h
  rcases h with h | h <;>
  · simp [cross_validate_var, h]

/-- Filtering the skipped declarations out changes nothing in the main loop. -/
theorem cross_validate_globals_go_filter (uo : Bool) (st : CvgState)
    (vs : List IrVariable) :
    cross_validate_globals_go uo st
      (vs.filter (fun v => cvg_participates (.var v))) =
    cross_validate_globals_go uo st vs := by
  induction vs generalizing st with
  | nil => rfl
  | cons v rest ih =>
    by_cases h : cvg_participates (.var v) = true
    · have hf : List.filter (fun v => cvg_participates (IrNode.var v))
          (v :: rest) =
          v :: List.filter (fun v => cvg_participates (IrNode.var v)) rest := by
        simp [List.filter_cons, h]
      rw [hf]
      simp only [cross_validate_globals_go]
      cases cross_validate_var uo st v with
      | ok st => exact ih st
      | error p => rfl
    · have hf : List.filter (fun v => cvg_participates (IrNode.var v))
          (v :: rest) =
          List.filter (fun v => cvg_participates (IrNode.var v)) rest := by
        simp [List.filter_cons, h]
      rw [hf, ih st]
      conv_rhs => rw [cross_validate_globals_go]
      rw [cross_validate_var_skip uo st v (by simpa using h)]

/-- Restricting an instruction list to its participating nodes restricts its
variable list to the participating variables. -/
theorem shader_vars_list_filter (ir : List IrNode) :
    List.filterMap (fun n =>
        match n with
        | IrNode.var v => some v
        | _ => none) (ir.filter cvg_participates) =
    (List.filterMap (fun n =>
        match n with
        | IrNode.var v => some v
        | _ => none) ir).filter (fun v => cvg_participates (.var v)) := by
  induction ir with
  | nil => rfl
  | cons n rest ih =>
    cases n with
    | var v =>
      by_cases h : cvg_participates (.var v) = true
      · simp [List.filter_cons, List.filterMap_cons, h, ih]
      · simp [List.filter_cons, List.filterMap_cons, h, ih]
    | func f => simp [List.filter_cons, List.filterMap_cons,
        cvg_participates, ih]
    | assignTo s => simp [List.filter_cons, List.filterMap_cons,
        cvg_participates, ih]
    | derefVar s => simp [List.filter_cons, List.filterMap_cons,
        cvg_participates, ih]
    | other => simp [List.filter_cons, List.filterMap_cons,
        cvg_participates, ih]

/-- Restricting a shader to its participating nodes restricts its variable
list to the participating variables. -/
theorem shader_variables_filter (sh : Option GlShader) :
    shader_variables (sh.map (fun s =>
      { s with ir := s.ir.filter cvg_participates })) =
    (shader_variables sh).filter (fun v => cvg_participates (.var v)) := by
  cases sh with
  | none => rfl
  | some s => exact shader_vars_list_filter s.ir

/-- C10: `cross_validate_globals` neither compares nor diagnoses global
declarations whose type contains a subroutine or whose storage mode is
temporary — deleting all of them from every shader yields the identical
result (same log, same LinkStatus), whatever their types, qualifiers or
initializers were. -/
theorem cross_validate_globals_skips_subroutine_temporary
    (prog : GlShaderProgram) (shader_list : List (Option GlShader))
    (uo : Bool) :
    cross_validate_globals prog
      (shader_list.map (Option.map (fun s =>
        { s with ir := s.ir.filter cvg_participates }))) uo =
    cross_validate_globals prog shader_list uo := by
  unfold cross_validate_globals
  rw [List.flatMap_map]
  have h : ∀ sl : List (Option GlShader),
      sl.flatMap (fun sh => shader_variables (sh.map (fun s =>
        { s with ir := s.ir.filter cvg_participates }))) =
      (sl.flatMap shader_variables).filter
        (fun v => cvg_participates (.var v)) := by
    intro sl
    induction sl with
    | nil => rfl
    | cons sh rest ih =>
      simp only [List.flatMap_cons, List.filter_append,
        shader_variables_filter]
      have ih' := ih
      simp only [shader_variables_filter] at ih'
      rw [ih']
  rw [h, cross_validate_globals_go_filter]

/-- `glsl_symbol_table::get_function`: first function declaration of that
name in an instruction list. -/
def get_function (ir : List IrNode) (n : String) : Option IrFunction :=
  ir.findSome? fun node =>
    match node with
    | .func f => if f.fname == n then some f else none
    | _ => none

/-- `ir_function::exact_matching_signature`: the signature with exactly the
given formal parameter list. -/
def exact_matching_signature (f : IrFunction) (ps : List String) :
    Option IrFuncSig :=
  f.sigs.find? (fun s => s.params == ps)

/-- Modelled from the spec: `_mesa_get_main_function_signature` is defined
outside this excerpt; the stage's required entry point is a defined
parameterless signature of the function named "main". -/
def get_main_function_signature (sh : GlShader) : Option IrFuncSig :=
  match get_function sh.ir "main" with
  | none => none
  | some f => f.sigs.find? (fun s => s.params == ([] : List String) &&
      s.is_defined)

/-- Duplicate-definition scan of one shader's functions against the shaders
after it: a non-builtin defined signature matched by a non-builtin defined
signature of the same function name in a later unit is a duplicate. -/
def fdf_check_shader (sh : GlShader) (rest : List GlShader) : Option String :=
  sh.ir.findSome? fun node =>
    match node with
    | .func f =>
      rest.findSome? fun other_sh =>
        match get_function other_sh.ir f.fname with
        | none => none
        | some other =>
          f.sigs.findSome? fun sig =>
            if sig.is_defined && !sig.is_builtin then
              match exact_matching_signature other sig.params with
              | some osig =>
                if osig.is_defined && !osig.is_builtin then some f.fname
                else none
              | none => none
            else none
    | _ => none

/-- The pairwise duplicate-function-definition check of
`link_intrastage_shaders` (shader i against shaders i+1..). -/
def find_duplicate_function : List GlShader → Option String
  | [] => none
  | sh :: rest =>
    match fdf_check_shader sh rest with
    | some n => some n
    | none => find_duplicate_function rest

/-- Intra-stage interface-block agreement loop: blocks of the same name
declared in several units of one stage must have identical definitions. -/
def vib_go : GlShaderProgram → List GlUniformBlock → List GlUniformBlock →
    GlShaderProgram
  | prog, _, [] => prog
  | prog, seen, b :: rest =>
    match seen.find? (fun c => c.bname == b.bname) with
    | some c =>
      if c.fieldsDef == b.fieldsDef then vib_go prog seen rest
      else linker_error prog ("definitions of interface block `" ++
        b.bname ++ "' do not match\n")
    | none => vib_go prog (seen ++ [b]) rest

/-- Modelled from the spec: `validate_intrastage_interface_blocks` is defined
outside this excerpt; per the spec, identically named interface blocks of one
stage must be declared structurally identically, otherwise the link fails
naming the entity. -/
def validate_intrastage_interface_blocks (prog : GlShaderProgram)
    (shader_list : List GlShader) : GlShaderProgram :=
  vib_go prog []
    (shader_list.flatMap (fun s => s.uniformBlocks ++ s.shaderStorageBlocks))

/-- `link_intrastage_shaders` up to entry-point selection: cross-validate
globals, validate interface blocks, reject duplicate function definitions,
then pick the first unit defining "main" — failing with a stage-naming
diagnostic when none does.  The remaining merge steps (cloning the seed and
resolving references into it) always start from the returned seed unit and
are beyond the properties claimed here. -/
def link_intrastage_shaders (prog : GlShaderProgram)
    (shader_list : List GlShader) : GlShaderProgram × Option GlShader :=
  let prog := cross_validate_globals prog (shader_list.map some) false
  if !prog.linkStatus then (prog, none)
  else
    let prog := validate_intrastage_interface_blocks prog shader_list
    if !prog.linkStatus then (prog, none)
    else
      match find_duplicate_function shader_list with
      | some fn =>
        (linker_error prog ("function `" ++ fn ++ "' is multiply defined\n"),
         none)
      | none =>
        match shader_list.find? (fun s =>
            (get_main_function_signature s).isSome) with
        | some mainSh => (prog, some mainSh)
        | none =>
          (linker_error prog (shader_stage_to_string
            ((shader_list.head?.map (fun s => s.stage)).getD 0) ++
            " shader lacks `main'\n"), none)

/-- `vib_go` never resurrects a cleared LinkStatus. -/
theorem vib_go_false (seen bs : List GlUniformBlock) (prog : GlShaderProgram)
    (h : prog.linkStatus = false) :
    (vib_go prog seen bs).linkStatus = false := by
  induction bs generalizing seen with
  | nil => exact h
  | cons b rest ih =>
    rw [vib_go]
    cases hf : seen.find? (fun c => c.bname == b.bname) with
    | none => exact ih _
    | some c =>
      by_cases he : (c.fieldsDef == b.fieldsDef) = true
      · simp only [he, if_true]
        exact ih _
      · simp only [he, if_false]
        rfl

/-- C3: a non-empty stage unit list in which no unit defines the entry point
"main" never produces a merged stage and always fails the link; when the
phases before the entry-point check pass, the failure is exactly the
stage-naming "lacks main" diagnostic. -/
theorem intrastage_missing_main_fails (prog : GlShaderProgram)
    (s0 : GlShader) (rest : List GlShader)
    (hnomain : ∀ sh ∈ s0 :: rest, get_main_function_signature sh = none) :
    ((link_intrastage_shaders prog (s0 :: rest)).2 = none ∧
     (link_intrastage_shaders prog (s0 :: rest)).1.linkStatus = false) ∧
    ((validate_intrastage_interface_blocks
        (cross_validate_globals prog ((s0 :: rest).map some) false)
        (s0 :: rest)).linkStatus = true →
      find_duplicate_function (s0 :: rest) = none →
      link_intrastage_shaders prog (s0 :: rest) =
        (linker_error
          (validate_intrastage_interface_blocks
            (cross_validate_globals prog ((s0 :: rest).map some) false)
            (s0 :: rest))
          (shader_stage_to_string s0.stage ++ " shader lacks `main'\n"),
         none)) := by
  have hfind : (s0 :: rest).find? (fun s =>
      (get_main_function_signature s).isSome) = none := by
    rw [List.find?_eq_none]
    intro sh hm
    simp [hnomain sh hm]
  constructor
  · unfold link_intrastage_shaders
    simp only [List.map_cons]
    by_cases h1 : (cross_validate_globals prog (some s0 :: rest.map some)
        false).linkStatus = true
    · simp only [h1, Bool.not_true, if_false]
      by_cases h2 : (validate_intrastage_interface_blocks
          (cross_validate_globals prog (some s0 :: rest.map some) false)
          (s0 :: rest)).linkStatus = true
      · simp only [h2, Bool.not_true, if_false]
        cases hdup : find_duplicate_function (s0 :: rest) with
        | some fn => simp [linker_error]
        | none => simp [hfind, linker_error]
      · simp only [Bool.not_eq_true] at h2
        simp [h2]
    · simp only [Bool.not_eq_true] at h1
      simp [h1]
  · intro h2 hdup
    simp only [List.map_cons] at h2
    have h1 : (cross_validate_globals prog (some s0 :: rest.map some)
        false).linkStatus = true := by
      by_contra hc
      simp only [Bool.not_eq_true] at hc
      rw [validate_intrastage_interface_blocks, vib_go_false _ _ _ hc] at h2
      exact Bool.false_ne_true h2
    unfold link_intrastage_shaders
    simp only [List.map_cons]
    simp only [h1, h2, Bool.not_true, if_false, hdup, hfind]
    simp

/-- C3 witness: a single empty vertex unit (no functions at all) makes the
pre-phases pass and the entry-point check fail with the vertex-stage
diagnostic. -/
theorem intrastage_missing_main_fails_witness :
    link_intrastage_shaders ⟨"", true, 110, false, []⟩ [⟨0, [], [], []⟩] =
      (linker_error ⟨"", true, 110, false, []⟩
        ("vertex" ++ " shader lacks `main'\n"), none) ∧
    (link_intrastage_shaders ⟨"", true, 110, false, []⟩
      [⟨0, [], [], []⟩]).1.linkStatus = false := by
  have h := intrastage_missing_main_fails ⟨"", true, 110, false, []⟩
    ⟨0, [], [], []⟩ [] (by intro sh hm; simp at hm; subst hm; rfl)
  exact ⟨h.2 (by decide) (by decide), h.1.2⟩

/-- Lookup of a canonical block by identity key, returning its index, or -1
when a block of the same name has a mismatching definition. -/
def lcvub_find : List GlUniformBlock → GlUniformBlock → Nat → Option Int
  | [], _, _ => none
  | c :: rest, b, i =>
    if c.bname == b.bname then
      some (if c.fieldsDef == b.fieldsDef then (i : Int) else -1)
    else lcvub_find rest b (i + 1)

/-- Modelled from the spec: `link_cross_validate_uniform_block` is defined
outside this excerpt; per the spec, each per-stage block is looked up by its
structural identity key in the canonical list — absent keys insert a fresh
canonical entry (stage-usage mask cleared), present keys structurally compare
the definitions and report failure (-1) on mismatch. -/
def link_cross_validate_uniform_block (blks : List GlUniformBlock)
    (b : GlUniformBlock) : List GlUniformBlock × Int :=
  match lcvub_find blks b 0 with
  | some idx => (blks, idx)
  | none => (blks ++ [{ b with stageref := 0 }], (blks.length : Int))

/-- Inner loop of `interstage_cross_validate_uniform_blocks` for one stage:
merge each of the stage's blocks into the canonical list; `-1` aborts with
the offending block's name; otherwise the canonical index of each block is
recorded (the source's `InterfaceBlockStageIndex`). -/
def icv_run_stage (blks : List GlUniformBlock) :
    List GlUniformBlock → Except String (List GlUniformBlock × List Nat)
  | [] => .ok (blks, [])
  | b :: rest =>
    let r := link_cross_validate_uniform_block blks b
    if r.2 = -1 then .error b.bname
    else
      match icv_run_stage r.1 rest with
      | .error n => .error n
      | .ok (blksF, idxs) => .ok (blksF, r.2.toNat :: idxs)

/-- Outer loop over the per-stage linked shaders (absent stages skipped),
accumulating (stage, canonical index) reference pairs. -/
def icv_run (validate_ssbo : Bool) :
    Nat → List (Option GlShader) → List GlUniformBlock →
    Except String (List GlUniformBlock × List (Nat × Nat))
  | _, [], blks => .ok (blks, [])
  | i, none :: rest, blks => icv_run validate_ssbo (i + 1) rest blks
  | i, some sh :: rest, blks =>
    match icv_run_stage blks
        (if validate_ssbo then sh.shaderStorageBlocks
         else sh.uniformBlocks) with
    | .error n => .error n
    | .ok (blks, idxs) =>
      match icv_run validate_ssbo (i + 1) rest blks with
      | .error n => .error n
      | .ok (blksF, pairs) =>
        .ok (blksF, idxs.map (fun idx => (i, idx)) ++ pairs)

/-- `blks[idx].stageref |= (1 << i)` of the source's second loop. -/
def mark_stageref (blks : List GlUniformBlock) (idx i : Nat) :
    List GlUniformBlock :=
  blks.mapIdx fun j b =>
    if j = idx then { b with stageref := b.stageref ||| (1 <<< i) } else b

/-- `interstage_cross_validate_uniform_blocks`: merges every stage's blocks
of one pool (uniform or shader-storage) into the program-wide canonical
list, failing with a "mismatching definitions" diagnostic, and then sets
each canonical block's stage-usage bit for every stage referencing it. -/
def interstage_cross_validate_uniform_blocks (prog : GlShaderProgram)
    (linked : List (Option GlShader)) (validate_ssbo : Bool) :
    GlShaderProgram × Bool × List GlUniformBlock :=
  match icv_run validate_ssbo 0 linked [] with
  | .error n =>
    (linker_error prog ("buffer block `" ++ n ++
      "' has mismatching definitions\n"), false, [])
  | .ok (blks, pairs) =>
    (prog, true, pairs.foldl (fun bl p => mark_stageref bl p.2 p.1) blks)

/-- C7: a buffer block declared with structurally identical definitions in a
vertex and a fragment unit merges into exactly one canonical entry whose
stage-usage mask covers both stages, and a structurally mismatching
definition fails the link with the "mismatching definitions" diagnostic. -/
theorem interstage_block_merge_canonical (prog : GlShaderProgram)
    (b1 b2 : GlUniformBlock) (hname : b1.bname = b2.bname) :
    (b1.fieldsDef = b2.fieldsDef →
      interstage_cross_validate_uniform_blocks prog
        [some ⟨0, [], [], [b1]⟩, none, none, none, some ⟨4, [], [], [b2]⟩,
         none] true =
      (prog, true, [{ b1 with stageref := (1 <<< 0) ||| (1 <<< 4) }])) ∧
    (b1.fieldsDef ≠ b2.fieldsDef →
      interstage_cross_validate_uniform_blocks prog
        [some ⟨0, [], [], [b1]⟩, none, none, none, some ⟨4, [], [], [b2]⟩,
         none] true =
      (linker_error prog ("buffer block `" ++ b2.bname ++
        "' has mismatching definitions\n"), false, []) ∧
      (interstage_cross_validate_uniform_blocks prog
        [some ⟨0, [], [], [b1]⟩, none, none, none, some ⟨4, [], [], [b2]⟩,
         none] true).1.linkStatus = false) := by
  constructor
  · intro hf
    simp [interstage_cross_validate_uniform_blocks, icv_run, icv_run_stage,
      link_cross_validate_uniform_block, lcvub_find, mark_stageref, hname,
      hf, List.mapIdx, List.mapIdx.go]
  · intro hf
    have hf' : (b1.fieldsDef == b2.fieldsDef) = false := by
      simp [hf]
    constructor
    · simp [interstage_cross_validate_uniform_blocks, icv_run, icv_run_stage,
        link_cross_validate_uniform_block, lcvub_find, hname, hf']
    · simp [interstage_cross_validate_uniform_blocks, icv_run, icv_run_stage,
        link_cross_validate_uniform_block, lcvub_find, hname, hf',
        linker_error]

/-- C7 witness: a block "Shared" with one unsized trailing array member,
declared identically in the vertex and fragment stage, merges into one
canonical entry with stage bits 0 and 4; bit mask 17 = 1 + 16. -/
theorem interstage_block_merge_canonical_witness :
    interstage_cross_validate_uniform_blocks ⟨"", true, 110, false, []⟩
      [some ⟨0, [], [], [⟨"Shared",
          [("data", GlslType.array (GlslType.base 0 1 false false false
            "float") 0)], 0⟩]⟩,
       none, none, none,
       some ⟨4, [], [], [⟨"Shared",
          [("data", GlslType.array (GlslType.base 0 1 false false false
            "float") 0)], 0⟩]⟩,
       none] true =
      (⟨"", true, 110, false, []⟩, true,
       [⟨"Shared",
          [("data", GlslType.array (GlslType.base 0 1 false false false
            "float") 0)], 17⟩]) := by
  have h := (interstage_block_merge_canonical ⟨"", true, 110, false, []⟩
    ⟨"Shared", [("data", GlslType.array (GlslType.base 0 1 false false false
      "float") 0)], 0⟩
    ⟨"Shared", [("data", GlslType.array (GlslType.base 0 1 false false false
      "float") 0)], 0⟩ rfl).1 rfl
  simpa using h

/-- `find_deref_visitor(name).run(ir); variable_found()`: whether the
instruction list contains a read of the variable of that name. -/
def find_deref (vname : String) (ir : List IrNode) : Bool :=
  ir.any fun n =>
    match n with
    | .derefVar d => d == vname
    | _ => false

/-- 32-bit complement (`~x` on `unsigned`), for `x < 2 ^ 32`. -/
def complement32 (x : Nat) : Nat := (2 ^ 32 - 1) ^^^ x

/-- Loop of `find_available_slots`: scan bit positions `i` upward for one
whose shifted needed-mask lies entirely in the complement of the used mask;
the iteration count is the loop bound `max_bit_to_test + 1 = 32 - n + 1`. -/
def fas_go (used_mask needed_count : Nat) : Nat → Nat → Int
  | _, 0 => -1
  | i, fuel + 1 =>
    if (((2 ^ needed_count - 1) <<< i) &&& complement32 used_mask) ==
        ((2 ^ needed_count - 1) <<< i) then (i : Int)
    else fas_go used_mask needed_count (i + 1) fuel

/-- `find_available_slots`: base location of the first contiguous run of
`needed_count` free bits of the 32-bit used mask, or -1.  (The source's
`max_bit_to_test > 32` guard arm cannot fire for an unsigned count.) -/
def find_available_slots (used_mask needed_count : Nat) : Int :=
  if needed_count = 0 ∨ 32 < needed_count then -1
  else fas_go used_mask needed_count 0 (32 - needed_count + 1)

/-- Modelled from the spec: `glsl_type::is_dual_slot` is defined outside this
excerpt — a double-width three- or four-component type consumes two slots;
base-type id 2 is the double-precision kind in this model. -/
def GlslType.is_dual_slot (t : GlslType) : Bool :=
  t.base_type == 2 && 2 < t.vector_elements

/-- Modelled from the spec: `glsl_type::count_attribute_slots` is defined
outside this excerpt — one slot per vector, two for double-width three/four
component vectors when counting vertex inputs, arrays multiply by length. -/
def count_attribute_slots : GlslType → Bool → Nat
  | .base b v _ _ _ _, is_vertex_input =>
    if is_vertex_input && b == 2 && 2 < v then 2 else 1
  | .array elem len, is_vertex_input =>
    len * count_attribute_slots elem is_vertex_input

/-- The device limits `assign_attribute_or_color_locations` consults. -/
structure GlConstants where
  maxAttribs : Nat
  maxDrawBuffers : Nat
  maxDualSourceDrawBuffers : Nat
deriving DecidableEq, Repr

/-- `MESA_SHADER_VERTEX` -/
def MESA_SHADER_VERTEX : Nat := 0

/-- `MESA_SHADER_FRAGMENT` -/
def MESA_SHADER_FRAGMENT : Nat := 4

/-- Modelled from the spec: the first generic vertex-attribute location
(`VERT_ATTRIB_GENERIC0`), a device-layout constant defined outside this
excerpt. -/
def VERT_ATTRIB_GENERIC0 : Int := 16

/-- Modelled from the spec: the first generic fragment-output location
(`FRAG_RESULT_DATA0`), a device-layout constant defined outside this
excerpt. -/
def FRAG_RESULT_DATA0 : Int := 4

/-- One entry of the `to_assign` array: the slot count and the variable. -/
structure TempAttr where
  slots : Nat
  var : IrVariable
deriving DecidableEq, Repr

/-- `prog->AttributeBindings->get(binding, name)` and friends, modelled as
association-list lookup. -/
def lookup_binding (l : List (String × Nat)) (n : String) : Option Nat :=
  (l.find? (fun p => p.1 == n)).map (fun p => p.2)

/-- State of the first pass of `assign_attribute_or_color_locations`. -/
structure AaclState where
  prog : GlShaderProgram
  used_locations : Nat
  double_storage_locations : Nat
  assigned : List IrVariable
  to_assign : List TempAttr
deriving DecidableEq, Repr

/-- Component-aliasing check of a newly seen explicit fragment output against
every previously assigned variable (desktop-GL fragment path): an overlapping
pair must have the same underlying base type and disjoint component masks. -/
def aacl_check_aliases (prog : GlShaderProgram) (string : String)
    (generic_base : Int) (var : IrVariable) (use_mask attr : Nat) :
    List IrVariable → Except GlShaderProgram Unit
  | [] => .ok ()
  | a :: rest =>
    let assigned_slots := count_attribute_slots a.vtype false
    let assig_attr := (a.location - generic_base).toNat
    let assigned_use_mask := 2 ^ assigned_slots - 1
    if (assigned_use_mask <<< assig_attr) &&& (use_mask <<< attr) ≠ 0 then
      let assigned_type := a.vtype.without_array
      let ty := var.vtype.without_array
      if assigned_type.base_type ≠ ty.base_type then
        .error (linker_error prog ("types do not match for aliased " ++
          string ++ "s " ++ a.name ++ " and " ++ var.name ++ "\n"))
      else
        let assigned_component_mask :=
          (2 ^ assigned_type.vector_elements - 1) <<< a.location_frac
        let component_mask :=
          (2 ^ ty.vector_elements - 1) <<< var.location_frac
        if assigned_component_mask &&& component_mask ≠ 0 then
          .error (linker_error prog ("overlapping component is assigned " ++
            "to " ++ string ++ "s " ++ a.name ++ " and " ++ var.name ++
            " (component=" ++ toString var.location_frac ++ ")\n"))
        else
          aacl_check_aliases prog string generic_base var use_mask attr rest
    else
      aacl_check_aliases prog string generic_base var use_mask attr rest

/-- Overlap policy of the first pass: desktop-GL fragment outputs run the
component-aliasing check; ES fragment outputs and ES-3.00+ vertex inputs are
a hard error; legacy vertex inputs get only a warning. -/
def aacl_overlap_policy (prog : GlShaderProgram) (target_index : Nat)
    (string : String) (generic_base : Int) (var : IrVariable)
    (use_mask attr used_locations : Nat) (assigned : List IrVariable) :
    Except GlShaderProgram GlShaderProgram :=
  if target_index = MESA_SHADER_FRAGMENT && !prog.isES then
    match aacl_check_aliases prog string generic_base var use_mask attr
        assigned with
    | .error p => .error p
    | .ok _ => .ok prog
  else if target_index = MESA_SHADER_FRAGMENT ||
      (prog.isES && 300 ≤ prog.version) then
    .error (linker_error prog ("overlapping location is assigned to " ++
      string ++ " `" ++ var.name ++ "' " ++ toString used_locations ++ " " ++
      toString use_mask ++ " " ++ toString attr ++ "\n"))
  else
    .ok (linker_warning prog ("overlapping location is assigned to " ++
      string ++ " `" ++ var.name ++ "' " ++ toString used_locations ++ " " ++
      toString use_mask ++ " " ++ toString attr ++ "\n"))

/-- Application of user-set bindings (glBindAttribLocation /
glBindFragDataLocation) and validity check of an explicit location. -/
def aacl_apply_bindings (prog : GlShaderProgram) (target_index max_index : Nat)
    (generic_base : Int)
    (attributeBindings fragDataBindings fragDataIndexBindings :
      List (String × Nat)) (var : IrVariable) :
    Except GlShaderProgram IrVariable :=
  if var.explicit_location then
    let var := { var with is_unmatched_generic_inout := false }
    if (max_index : Int) + generic_base ≤ var.location ∨ var.location < 0 then
      .error (linker_error prog ("invalid explicit location " ++
        toString (if var.location < 0 then var.location
          else var.location - generic_base) ++
        " specified for `" ++ var.name ++ "'\n"))
    else .ok var
  else if target_index = MESA_SHADER_VERTEX then
    match lookup_binding attributeBindings var.name with
    | some binding =>
      .ok { var with
        location := (binding : Int)
        is_unmatched_generic_inout := false }
    | none => .ok var
  else if target_index = MESA_SHADER_FRAGMENT then
    match lookup_binding fragDataBindings var.name with
    | some binding =>
      let var := { var with
        location := (binding : Int)
        is_unmatched_generic_inout := false }
      match lookup_binding fragDataIndexBindings var.name with
      | some idx => .ok { var with index := idx }
      | none => .ok var
    | none => .ok var
  else .ok var

/-- Processing of one variable of the allocation direction in the first pass
of `assign_attribute_or_color_locations`: bindings and validity, the
dual-source limit, then either the explicit-location bookkeeping (with the
overlap policy) or queueing for linker assignment. -/
def aacl_scan_var (target_index max_index : Nat) (generic_base : Int)
    (constants : GlConstants)
    (attributeBindings fragDataBindings fragDataIndexBindings :
      List (String × Nat)) (st : AaclState) (var : IrVariable) :
    Except GlShaderProgram AaclState :=
  match aacl_apply_bindings st.prog target_index max_index generic_base
      attributeBindings fragDataBindings fragDataIndexBindings var with
  | .error p => .error p
  | .ok var =>
    if target_index = MESA_SHADER_FRAGMENT && 1 ≤ var.index &&
        (constants.maxDualSourceDrawBuffers : Int) ≤
          var.location - generic_base then
      .error (linker_error st.prog ("output location " ++
        toString (var.location - generic_base) ++
        " >= GL_MAX_DUAL_SOURCE_DRAW_BUFFERS with index " ++
        toString var.index ++ " for " ++ var.name ++ "\n"))
    else
      let slots := count_attribute_slots var.vtype
        (target_index == MESA_SHADER_VERTEX)
      if var.location ≠ -1 then
        if generic_base ≤ var.location && var.index < 1 then
          let attr := (var.location - generic_base).toNat
          let use_mask := 2 ^ slots - 1
          let string := if target_index = MESA_SHADER_VERTEX
            then "vertex shader input" else "fragment shader output"
          if max_index < attr + slots then
            .error (linker_error st.prog
              ("insufficient contiguous locations available for " ++
                string ++ " `" ++ var.name ++ "' " ++
                toString st.used_locations ++ " " ++ toString use_mask ++
                " " ++ toString attr ++ "\n"))
          else
            match (if (complement32 (use_mask <<< attr)) &&&
                  st.used_locations ≠ st.used_locations then
                aacl_overlap_policy st.prog target_index string generic_base
                  var use_mask attr st.used_locations st.assigned
              else .ok st.prog) with
            | .error p => .error p
            | .ok prog =>
              .ok ⟨prog,
                st.used_locations ||| (use_mask <<< attr),
                (if var.vtype.without_array.is_dual_slot then
                  st.double_storage_locations ||| (use_mask <<< attr)
                 else st.double_storage_locations),
                st.assigned ++ [var],
                st.to_assign⟩
        else
          .ok { st with assigned := st.assigned ++ [var] }
      else
        if max_index ≤ st.to_assign.length then
          .error (linker_error st.prog ("too many " ++
            (if target_index = MESA_SHADER_VERTEX then
              "vertex shader inputs" else "fragment shader outputs") ++
            " (max " ++ toString max_index ++ ")"))
        else
          .ok { st with to_assign := st.to_assign ++ [⟨slots, var⟩] }

/-- The first pass over the whole instruction list: variables of the
allocation direction are processed, everything else is skipped. -/
def aacl_scan (target_index max_index : Nat) (generic_base : Int)
    (constants : GlConstants)
    (attributeBindings fragDataBindings fragDataIndexBindings :
      List (String × Nat)) :
    AaclState → List IrNode → Except GlShaderProgram AaclState
  | st, [] => .ok st
  | st, node :: rest =>
    match node with
    | .var v =>
      if v.mode == (if target_index = MESA_SHADER_VERTEX then
          VarMode.shaderIn else VarMode.shaderOut) then
        match aacl_scan_var target_index max_index generic_base constants
            attributeBindings fragDataBindings fragDataIndexBindings st v with
        | .error p => .error p
        | .ok st => aacl_scan target_index max_index generic_base constants
            attributeBindings fragDataBindings fragDataIndexBindings st rest
      else aacl_scan target_index max_index generic_base constants
        attributeBindings fragDataBindings fragDataIndexBindings st rest
    | _ => aacl_scan target_index max_index generic_base constants
        attributeBindings fragDataBindings fragDataIndexBindings st rest

/-- The `qsort(to_assign, ..., temp_attr::compare)` of the source: descending
sort by slot count (the C comparator `r->slots - l->slots`; qsort leaves the
order of equal keys unspecified, which no claimed property depends on). -/
def temp_attr_sort (l : List TempAttr) : List TempAttr :=
  l.insertionSort (fun a b => b.slots ≤ a.slots)

/-- The final assignment loop (pass 4): first-fit each queued variable into
the used mask, recording the `var->data.location` writes as name/location
pairs, or fail with the insufficient-contiguous-locations diagnostic. -/
def aacl_assign (prog : GlShaderProgram) (string : String)
    (generic_base : Int) :
    Nat → Nat → List TempAttr →
    Except GlShaderProgram (List (String × Int) × Nat × Nat)
  | used, double, [] => .ok ([], used, double)
  | used, double, a :: rest =>
    let use_mask := 2 ^ a.slots - 1
    let location := find_available_slots used a.slots
    if location < 0 then
      .error (linker_error prog
        ("insufficient contiguous locations available for " ++ string ++
          " `" ++ a.var.name ++ "'\n"))
    else
      let used := used ||| (use_mask <<< location.toNat)
      let double := if a.var.vtype.without_array.is_dual_slot then
          double ||| (use_mask <<< location.toNat)
        else double
      match aacl_assign prog string generic_base used double rest with
      | .error p => .error p
      | .ok (out, usedF, doubleF) =>
        .ok ((a.var.name, generic_base + location) :: out, usedF, doubleF)

/-- `_mesa_bitcount` on a 32-bit value. -/
def bitcount32 (n : Nat) : Nat :=
  ((List.range 32).filter (fun i => n.testBit i)).length

/-- `assign_attribute_or_color_locations`: assigns locations for vertex
inputs or fragment outputs.  Returns the program, the success flag, and the
locations the final pass assigned (the `var->data.location` mutations of
pass 4); the per-stage shader and the API binding tables are passed
explicitly (the source reads them from `prog`). -/
def assign_attribute_or_color_locations (prog : GlShaderProgram)
    (constants : GlConstants) (target_index : Nat) (sh : Option GlShader)
    (attributeBindings fragDataBindings fragDataIndexBindings :
      List (String × Nat)) :
    GlShaderProgram × Bool × List (String × Int) :=
  let max_index := if target_index = MESA_SHADER_VERTEX then
      constants.maxAttribs
    else max constants.maxDrawBuffers constants.maxDualSourceDrawBuffers
  let used_locations := if 32 ≤ max_index then 2 ^ 32 - 1
    else complement32 (2 ^ max_index - 1)
  match sh with
  | none => (prog, true, [])
  | some sh =>
    let generic_base : Int := if target_index = MESA_SHADER_VERTEX then
        VERT_ATTRIB_GENERIC0 else FRAG_RESULT_DATA0
    match aacl_scan target_index max_index generic_base constants
        attributeBindings fragDataBindings fragDataIndexBindings
        ⟨prog, used_locations, 0, [], []⟩ sh.ir with
    | .error p => (p, false, [])
    | .ok st =>
      if target_index = MESA_SHADER_VERTEX &&
          max_index < bitcount32 (st.used_locations &&&
            (2 ^ max_index - 1)) + bitcount32 st.double_storage_locations then
        (linker_error st.prog ("attempt to use " ++
          toString (bitcount32 (st.used_locations &&& (2 ^ max_index - 1)) +
            bitcount32 st.double_storage_locations) ++
          " vertex attribute slots only " ++ toString max_index ++
          " available "), false, [])
      else if st.to_assign.length = 0 then (st.prog, true, [])
      else
        let sorted := temp_attr_sort st.to_assign
        let used := if target_index = MESA_SHADER_VERTEX &&
            find_deref "gl_Vertex" sh.ir then
            st.used_locations ||| (1 <<< 0)
          else st.used_locations
        let string := if target_index = MESA_SHADER_VERTEX then
            "vertex shader input" else "fragment shader output"
        match aacl_assign st.prog string generic_base used
            st.double_storage_locations sorted with
        | .error p => (p, false, [])
        | .ok (assignments, usedF, doubleF) =>
          if target_index = MESA_SHADER_VERTEX &&
              max_index < bitcount32 (usedF &&& (2 ^ max_index - 1)) +
                bitcount32 doubleF then
            (linker_error st.prog ("attempt to use " ++
              toString (bitcount32 (usedF &&& (2 ^ max_index - 1)) +
                bitcount32 doubleF) ++
              " vertex attribute slots only " ++ toString max_index ++
              " available "), false, assignments)
          else (st.prog, true, assignments)

/-- Specification-side predicate (for checking the allocator against the
spec's words): locations `i .. i + n - 1` are a contiguous run of free bits
in the 32-bit used mask. -/
def FitsAt (used n i : Nat) : Prop :=
  i + n ≤ 32 ∧ ((2 ^ n - 1) <<< i) &&& used = 0

/-- Specification-side predicate: `i` is the lowest-numbered location whose
contiguous run of `n` free slots fits (first-fit). -/
def IsFirstFit (used n i : Nat) : Prop :=
  FitsAt used n i ∧ ∀ j, j < i → ¬ FitsAt used n j

instance (used n i : Nat) : Decidable (FitsAt used n i) := by
  unfold FitsAt; infer_instance

instance (used n i : Nat) : Decidable (IsFirstFit used n i) := by
  unfold IsFirstFit; infer_instance

/-- A mask of `n` bits shifted to position `i` stays below `2 ^ 32` when the
run lies inside the 32-bit word. -/
theorem shiftLeft_mask_lt {n i : Nat} (h : i + n ≤ 32) :
    (2 ^ n - 1) <<< i < 2 ^ 32 := by
  rw [Nat.shiftLeft_eq]
  have h1 : (2 ^ n - 1) * 2 ^ i < 2 ^ n * 2 ^ i :=
    mul_lt_mul_of_pos_right
      (Nat.sub_lt (pow_pos (by norm_num) n) (by norm_num))
      (pow_pos (by norm_num) i)
  have h2 : (2 : Nat) ^ n * 2 ^ i = 2 ^ (n + i) := (pow_add 2 n i).symm
  have h3 : (2 : Nat) ^ (n + i) ≤ 2 ^ 32 :=
    Nat.pow_le_pow_right (by norm_num) (by omega)
  omega

/-- The loop condition of `find_available_slots` tests exactly disjointness
of the shifted needed-mask from the used mask. -/
theorem complement32_and_eq (m u : Nat) (hm : m < 2 ^ 32) (_hu : u < 2 ^ 32) :
    ((m &&& complement32 u) = m) ↔ (m &&& u = 0) := by
  unfold complement32
  constructor
  · intro h
    apply Nat.eq_of_testBit_eq
    intro i
    rw [Nat.testBit_land, Nat.zero_testBit]
    by_cases hi : i < 32
    · have hb := congrArg (fun x => Nat.testBit x i) h
      simp only [Nat.testBit_land, Nat.testBit_xor,
        Nat.testBit_two_pow_sub_one] at hb
      cases hmi : m.testBit i <;> cases hui : u.testBit i <;>
        simp_all [hi]
    · have hmi : m.testBit i = false :=
        Nat.testBit_lt_two_pow (lt_of_lt_of_le hm
          (Nat.pow_le_pow_right (by omega) (by omega)))
      simp [hmi]
  · intro h
    apply Nat.eq_of_testBit_eq
    intro i
    rw [Nat.testBit_land, Nat.testBit_xor, Nat.testBit_two_pow_sub_one]
    by_cases hi : i < 32
    · have hb := congrArg (fun x => Nat.testBit x i) h
      simp only [Nat.testBit_land, Nat.zero_testBit] at hb
      cases hmi : m.testBit i <;> cases hui : u.testBit i <;>
        simp_all [hi]
    · have hmi : m.testBit i = false :=
        Nat.testBit_lt_two_pow (lt_of_lt_of_le hm
          (Nat.pow_le_pow_right (by omega) (by omega)))
      simp [hmi]

/-- The scan loop returns the first fitting position at or after `i`, and -1
exactly when no position at or after `i` fits. -/
theorem fas_go_spec (used n : Nat) (hu : used < 2 ^ 32) (hn1 : 1 ≤ n)
    (hn : n ≤ 32) :
    ∀ fuel i, i + fuel = 32 - n + 1 →
      (fas_go used n i fuel = -1 ∧ ∀ j, i ≤ j → ¬ FitsAt used n j) ∨
      (∃ k : Nat, fas_go used n i fuel = (k : Int) ∧ FitsAt used n k ∧
        ∀ j, i ≤ j → j < k → ¬ FitsAt used n j) := by
  intro fuel
  induction fuel with
  | zero =>
    intro i hi
    left
    refine ⟨rfl, fun j hj hfit => ?_⟩
    rcases hfit with ⟨hb, _⟩
    omega
  | succ fuel ih =>
    intro i hi
    have hin : i + n ≤ 32 := by omega
    have hcond : ((((2 ^ n - 1) <<< i) &&& complement32 used) ==
        ((2 ^ n - 1) <<< i)) = true ↔ FitsAt used n i := by
      rw [beq_iff_eq, complement32_and_eq _ _ (shiftLeft_mask_lt hin) hu]
      unfold FitsAt
      exact ⟨fun h => ⟨hin, h⟩, fun h => h.2⟩
    by_cases hc : FitsAt used n i
    · right
      refine ⟨i, ?_, hc, fun j h1 h2 => absurd (lt_of_le_of_lt h1 h2)
        (lt_irrefl i)⟩
      rw [fas_go]
      simp [hcond.mpr hc]
    · have hcf : ((((2 ^ n - 1) <<< i) &&& complement32 used) ==
          ((2 ^ n - 1) <<< i)) = false := by
        rw [Bool.eq_false_iff]
        intro hx
        exact hc (hcond.mp hx)
      rcases ih (i + 1) (by omega) with ⟨hret, hnone⟩ | ⟨k, hret, hfit, hmin⟩
      · left
        refine ⟨?_, fun j hj hfj => ?_⟩
        · rw [fas_go, hcf]
          simpa using hret
        · rcases Nat.eq_or_lt_of_le hj with rfl | hlt
          · exact hc hfj
          · exact hnone j hlt hfj
      · right
        refine ⟨k, ?_, hfit, fun j h1 h2 => ?_⟩
        · rw [fas_go, hcf]
          simpa using hret
        · rcases Nat.eq_or_lt_of_le h1 with rfl | hlt
          · exact hc
          · exact hmin j hlt h2

/-- `find_available_slots` computes the specification's first fit: a
non-negative return is the lowest-numbered fitting position, -1 means no
position fits. -/
theorem find_available_slots_spec (used n : Nat) (hu : used < 2 ^ 32)
    (hn1 : 1 ≤ n) :
    (find_available_slots used n = -1 ∧ ∀ i, ¬ FitsAt used n i) ∨
    (∃ k : Nat, find_available_slots used n = (k : Int) ∧
      IsFirstFit used n k) := by
  unfold find_available_slots
  by_cases h32 : 32 < n
  · left
    refine ⟨by simp [h32], fun i hfit => ?_⟩
    rcases hfit with ⟨hb, _⟩
    omega
  · have hn : n ≤ 32 := by omega
    have hg : ¬ (n = 0 ∨ 32 < n) := by omega
    rcases fas_go_spec used n hu hn1 hn (32 - n + 1) 0 (by omega) with
      ⟨hret, hnone⟩ | ⟨k, hret, hfit, hmin⟩
    · left
      exact ⟨by simp [hg, hret], fun i => hnone i (Nat.zero_le i)⟩
    · right
      exact ⟨k, by simp [hg, hret],
        hfit, fun j hj => hmin j (Nat.zero_le j) hj⟩

/-- Specification-side trace: the allocation loop assigns each queued
variable, in order, the first-fit location of the running used mask
(locations reported relative to `gbase`). -/
inductive AssignTrace (gbase : Int) : Nat → List TempAttr →
    List (String × Int) → Prop where
  | nil (used : Nat) : AssignTrace gbase used [] []
  | cons (used : Nat) (a : TempAttr) (rest : List TempAttr) (i : Nat)
      (out : List (String × Int)) :
      IsFirstFit used a.slots i →
      AssignTrace gbase (used ||| ((2 ^ a.slots - 1) <<< i)) rest out →
      AssignTrace gbase used (a :: rest) ((a.var.name, gbase + (i : Int)) ::
        out)

/-- Specification-side failure: after first-fit processing of a prefix, some
variable has no contiguous free run at all. -/
inductive AssignFails : Nat → List TempAttr → Prop where
  | here (used : Nat) (a : TempAttr) (rest : List TempAttr) :
      (∀ i, ¬ FitsAt used a.slots i) → AssignFails used (a :: rest)
  | there (used : Nat) (a : TempAttr) (rest : List TempAttr) (i : Nat) :
      IsFirstFit used a.slots i →
      AssignFails (used ||| ((2 ^ a.slots - 1) <<< i)) rest →
      AssignFails used (a :: rest)

/-- Correctness of the final assignment loop against the specification
predicates: success yields a first-fit trace, failure means some variable
had no fitting run and the diagnostic is the insufficient-contiguous one. -/
theorem aacl_assign_spec (prog : GlShaderProgram) (string : String)
    (gbase : Int) :
    ∀ (l : List TempAttr) (used double : Nat), used < 2 ^ 32 →
      (∀ a ∈ l, 1 ≤ a.slots) →
      (∀ out uF dF, aacl_assign prog string gbase used double l =
        .ok (out, uF, dF) → AssignTrace gbase used l out) ∧
      (∀ p, aacl_assign prog string gbase used double l = .error p →
        AssignFails used l ∧ p.linkStatus = false ∧
        ∃ nm, p.infoLog = prog.infoLog ++ "error: " ++
          ("insufficient contiguous locations available for " ++ string ++
            " `" ++ nm ++ "'\n")) := by
  intro l
  induction l with
  | nil =>
    intro used double hu hl
    constructor
    · intro out uF dF h
      have h' : out = [] ∧ used = uF ∧ double = dF := by
        simpa [aacl_assign] using h
      rcases h' with ⟨rfl, _, _⟩
      exact AssignTrace.nil used
    · intro p h
      simp [aacl_assign] at h
  | cons a rest ih =>
    intro used double hu hl
    have ha : 1 ≤ a.slots := hl a (List.mem_cons_self a rest)
    have hrestl : ∀ b ∈ rest, 1 ≤ b.slots :=
      fun b hb => hl b (List.mem_cons_of_mem a hb)
    rcases find_available_slots_spec used a.slots hu ha with
      ⟨hret, hnone⟩ | ⟨k, hret, hfit⟩
    · constructor
      · intro out uF dF h
        simp only [aacl_assign, hret] at h
        norm_num at h
        simp at h
      · intro p h
        simp only [aacl_assign, hret] at h
        norm_num at h
        refine ⟨AssignFails.here used a rest hnone, ?_, a.var.name, ?_⟩
        · rw [← h]
          rfl
        · rw [← h]
          rfl
    · have hk0 : ¬ ((k : Int) < 0) := Int.not_lt.mpr (Int.natCast_nonneg k)
      have hused2 : used ||| ((2 ^ a.slots - 1) <<< k) < 2 ^ 32 :=
        Nat.or_lt_two_pow hu (shiftLeft_mask_lt hfit.1.1)
      have ihr := ih (used ||| ((2 ^ a.slots - 1) <<< k))
        (if a.var.vtype.without_array.is_dual_slot then
          double ||| ((2 ^ a.slots - 1) <<< k) else double) hused2 hrestl
      constructor
      · intro out uF dF h
        simp only [aacl_assign, hret, Int.toNat_natCast, if_neg hk0] at h
        cases hrec : aacl_assign prog string gbase
            (used ||| ((2 ^ a.slots - 1) <<< k))
            (if a.var.vtype.without_array.is_dual_slot then
              double ||| ((2 ^ a.slots - 1) <<< k) else double) rest with
        | error p => rw [hrec] at h; simp at h
        | ok triple =>
          rw [hrec] at h
          obtain ⟨outR, uR, dR⟩ := triple
          injection h with h2
          injection h2 with ha hb
          subst ha
          exact AssignTrace.cons used a rest k outR hfit
            (ihr.1 outR uR dR hrec)
      · intro p h
        simp only [aacl_assign, hret, Int.toNat_natCast, if_neg hk0] at h
        cases hrec : aacl_assign prog string gbase
            (used ||| ((2 ^ a.slots - 1) <<< k))
            (if a.var.vtype.without_array.is_dual_slot then
              double ||| ((2 ^ a.slots - 1) <<< k) else double) rest with
        | error q =>
          rw [hrec] at h
          simp only [Except.error.injEq] at h
          obtain ⟨hfail, hstat, nm, hlog⟩ := ihr.2 q hrec
          rw [← h]
          exact ⟨AssignFails.there used a rest k hfit hfail, hstat, nm, hlog⟩
        | ok triple =>
          rw [hrec] at h
          obtain ⟨outR, uR, dR⟩ := triple
          simp at h

instance : IsTotal TempAttr (fun a b => b.slots ≤ a.slots) :=
  ⟨fun a b => le_total b.slots a.slots⟩

instance : IsTrans TempAttr (fun a b => b.slots ≤ a.slots) :=
  ⟨fun _ _ _ h1 h2 => le_trans h2 h1⟩

/-- C1: the linker-assigned pass of `assign_attribute_or_color_locations`
processes the implicitly located variables in descending slot-count order (a
permutation of the queued set), gives each one the lowest-numbered location
whose contiguous run of free slots fits the moment it is processed
(first-fit over the used-location bit-mask), and fails with the
"insufficient contiguous locations" diagnostic exactly when some variable in
that order has no contiguous free run. -/
theorem assign_implicit_locations_first_fit (prog : GlShaderProgram)
    (string : String) (gbase : Int) (used double : Nat)
    (attrs : List TempAttr) (hused : used < 2 ^ 32)
    (hslots : ∀ a ∈ attrs, 1 ≤ a.slots) :
    ((temp_attr_sort attrs).Sorted (fun a b => b.slots ≤ a.slots) ∧
      (temp_attr_sort attrs).Perm attrs) ∧
    (∀ out uF dF,
      aacl_assign prog string gbase used double (temp_attr_sort attrs) =
        .ok (out, uF, dF) →
      AssignTrace gbase used (temp_attr_sort attrs) out) ∧
    (∀ p, aacl_assign prog string gbase used double (temp_attr_sort attrs) =
        .error p →
      AssignFails used (temp_attr_sort attrs) ∧ p.linkStatus = false ∧
      ∃ nm, p.infoLog = prog.infoLog ++ "error: " ++
        ("insufficient contiguous locations available for " ++ string ++
          " `" ++ nm ++ "'\n")) := by
  have hperm : (temp_attr_sort attrs).Perm attrs := by
    unfold temp_attr_sort
    exact List.perm_insertionSort (fun a b => b.slots ≤ a.slots) attrs
  have hsorted : (temp_attr_sort attrs).Sorted
      (fun a b => b.slots ≤ a.slots) := by
    unfold temp_attr_sort
    exact List.sorted_insertionSort (fun a b => b.slots ≤ a.slots) attrs
  have hsl : ∀ a ∈ temp_attr_sort attrs, 1 ≤ a.slots :=
    fun a ha => hslots a (hperm.mem_iff.mp ha)
  exact ⟨⟨hsorted, hperm⟩,
    (aacl_assign_spec prog string gbase (temp_attr_sort attrs) used double
      hused hsl).1,
    (aacl_assign_spec prog string gbase (temp_attr_sort attrs) used double
      hused hsl).2⟩

/-- C1 witness: with a 4-location space whose location 2 is pre-used, the
queued variables (1 slot then 2 slots) are sorted to (2, 1); the 2-slot one
first-fits at relative location 0 (absolute 16), the 1-slot one at relative
location 3 (absolute 19). -/
theorem assign_implicit_locations_first_fit_witness :
    AssignTrace 16 (complement32 (2 ^ 4 - 1) ||| 4)
      (temp_attr_sort
        [⟨1, ⟨"b", GlslType.base 0 3 false false false "vec3",
          VarMode.shaderIn, false, -1, 0, false, 0, 0, 0, false, false,
          false, false, 0, -1, false, none, false, 0, true, false⟩⟩,
         ⟨2, ⟨"a", GlslType.base 0 3 false false false "vec3",
          VarMode.shaderIn, false, -1, 0, false, 0, 0, 0, false, false,
          false, false, 0, -1, false, none, false, 0, true, false⟩⟩])
      [("a", 16), ("b", 19)] := by
  have h := (assign_implicit_locations_first_fit ⟨"", true, 110, false, []⟩
    "vertex shader input" 16 (complement32 (2 ^ 4 - 1) ||| 4) 0
    [⟨1, ⟨"b", GlslType.base 0 3 false false false "vec3",
      VarMode.shaderIn, false, -1, 0, false, 0, 0, 0, false, false,
      false, false, 0, -1, false, none, false, 0, true, false⟩⟩,
     ⟨2, ⟨"a", GlslType.base 0 3 false false false "vec3",
      VarMode.shaderIn, false, -1, 0, false, 0, 0, 0, false, false,
      false, false, 0, -1, false, none, false, 0, true, false⟩⟩]
    (by decide) (by decide)).2.1
  exact h [("a", 16), ("b", 19)] 4294967295 0 (by rfl)

/-- C2 counterexample: an ES 3.00 fragment shader with two explicit outputs
at the same location whose component masks are disjoint (components 0-1 and
2-3) and whose base types match is nevertheless a hard link failure — the
claim's component-disjointness permission does not apply to ES fragment
outputs. -/
theorem explicit_overlap_es_fragment_counterexample :
    (assign_attribute_or_color_locations ⟨"", true, 300, true, []⟩
      ⟨16, 8, 8⟩ 4
      (some ⟨4,
        [.var ⟨"o1", GlslType.base 0 2 false false false "vec2",
          VarMode.shaderOut, true, 4, 0, false, 0, 0, 0, false, false, false,
          false, 0, -1, false, none, false, 0, true, false⟩,
         .var ⟨"o2", GlslType.base 0 2 false false false "vec2",
          VarMode.shaderOut, true, 4, 2, false, 0, 0, 0, false, false, false,
          false, 0, -1, false, none, false, 0, true, false⟩], [], []⟩)
      [] [] []).1.linkStatus = false ∧
    (assign_attribute_or_color_locations ⟨"", true, 300, true, []⟩
      ⟨16, 8, 8⟩ 4
      (some ⟨4,
        [.var ⟨"o1", GlslType.base 0 2 false false false "vec2",
          VarMode.shaderOut, true, 4, 0, false, 0, 0, 0, false, false, false,
          false, 0, -1, false, none, false, 0, true, false⟩,
         .var ⟨"o2", GlslType.base 0 2 false false false "vec2",
          VarMode.shaderOut, true, 4, 2, false, 0, 0, 0, false, false, false,
          false, 0, -1, false, none, false, 0, true, false⟩], [], []⟩)
      [] [] []).2.1 = false := by
  constructor
  · rfl
  · rfl

/-- C2 (amended): when a second variable's explicit-location bit-mask
overlaps the already-used mask, the policy is: desktop-GL fragment outputs
run the component-aliasing check against the previously assigned variable —
erroring when base types differ or component masks intersect and permitting
the overlap (program untouched) when types match and components are
disjoint; ES fragment outputs, and ES-3.00+ vertex inputs, are a hard error
with the "overlapping location" diagnostic; legacy vertex inputs (desktop
GL, or ES before 3.00) get only that diagnostic as a warning, LinkStatus
unchanged, and processing continues. -/
theorem explicit_overlap_policy_amended (prog : GlShaderProgram)
    (constants : GlConstants) (t max_index : Nat) (gbase : Int)
    (used double : Nat) (a : IrVariable) (tas : List TempAttr)
    (v : IrVariable) (slots attr : Nat)
    (hexp : v.explicit_location = true)
    (hidx : v.index = 0)
    (hval : ¬ ((max_index : Int) + gbase ≤ v.location ∨ v.location < 0))
    (hgen : gbase ≤ v.location)
    (hslots : slots = count_attribute_slots v.vtype
      (t == MESA_SHADER_VERTEX))
    (hattrdef : attr = (v.location - gbase).toNat)
    (hrange : ¬ (max_index < attr + slots))
    (hover : (complement32 ((2 ^ slots - 1) <<< attr)) &&& used ≠ used) :
    (t = MESA_SHADER_FRAGMENT → prog.isES = false →
      ((2 ^ count_attribute_slots a.vtype false - 1) <<<
        (a.location - gbase).toNat) &&& ((2 ^ slots - 1) <<< attr) ≠ 0 →
      (a.vtype.without_array.base_type ≠ v.vtype.without_array.base_type →
        aacl_scan_var t max_index gbase constants [] [] []
          ⟨prog, used, double, [a], tas⟩ v =
        .error (linker_error prog ("types do not match for aliased " ++
          "fragment shader output" ++ "s " ++ a.name ++ " and " ++ v.name ++
          "\n"))) ∧
      (a.vtype.without_array.base_type = v.vtype.without_array.base_type →
        ((2 ^ a.vtype.without_array.vector_elements - 1) <<<
          a.location_frac) &&&
          ((2 ^ v.vtype.without_array.vector_elements - 1) <<<
            v.location_frac) ≠ 0 →
        aacl_scan_var t max_index gbase constants [] [] []
          ⟨prog, used, double, [a], tas⟩ v =
        .error (linker_error prog ("overlapping component is assigned " ++
          "to " ++ "fragment shader output" ++ "s " ++ a.name ++ " and " ++
          v.name ++ " (component=" ++ toString v.location_frac ++ ")\n"))) ∧
      (a.vtype.without_array.base_type = v.vtype.without_array.base_type →
        ((2 ^ a.vtype.without_array.vector_elements - 1) <<<
          a.location_frac) &&&
          ((2 ^ v.vtype.without_array.vector_elements - 1) <<<
            v.location_frac) = 0 →
        aacl_scan_var t max_index gbase constants [] [] []
          ⟨prog, used, double, [a], tas⟩ v =
        .ok ⟨prog, used ||| ((2 ^ slots - 1) <<< attr),
          (if v.vtype.without_array.is_dual_slot then
            double ||| ((2 ^ slots - 1) <<< attr) else double),
          [a] ++ [{ v with is_unmatched_generic_inout := false }], tas⟩)) ∧
    (t = MESA_SHADER_FRAGMENT → prog.isES = true →
      aacl_scan_var t max_index gbase constants [] [] []
        ⟨prog, used, double, [a], tas⟩ v =
      .error (linker_error prog ("overlapping location is assigned to " ++
        "fragment shader output" ++ " `" ++ v.name ++ "' " ++
        toString used ++ " " ++ toString (2 ^ slots - 1) ++ " " ++
        toString attr ++ "\n"))) ∧
    (t = MESA_SHADER_VERTEX → prog.isES = true → 300 ≤ prog.version →
      aacl_scan_var t max_index gbase constants [] [] []
        ⟨prog, used, double, [a], tas⟩ v =
      .error (linker_error prog ("overlapping location is assigned to " ++
        "vertex shader input" ++ " `" ++ v.name ++ "' " ++
        toString used ++ " " ++ toString (2 ^ slots - 1) ++ " " ++
        toString attr ++ "\n"))) ∧
    (t = MESA_SHADER_VERTEX → (prog.isES = false ∨ prog.version < 300) →
      aacl_scan_var t max_index gbase constants [] [] []
        ⟨prog, used, double, [a], tas⟩ v =
      .ok ⟨linker_warning prog ("overlapping location is assigned to " ++
          "vertex shader input" ++ " `" ++ v.name ++ "' " ++
          toString used ++ " " ++ toString (2 ^ slots - 1) ++ " " ++
          toString attr ++ "\n"),
        used ||| ((2 ^ slots - 1) <<< attr),
        (if v.vtype.without_array.is_dual_slot then
          double ||| ((2 ^ slots - 1) <<< attr) else double),
        [a] ++ [{ v with is_unmatched_generic_inout := false }], tas⟩ ∧
      (linker_warning prog ("overlapping location is assigned to " ++
          "vertex shader input" ++ " `" ++ v.name ++ "' " ++
          toString used ++ " " ++ toString (2 ^ slots - 1) ++ " " ++
          toString attr ++ "\n")).linkStatus = prog.linkStatus) := by
  have hloc0 : ¬ v.location < 0 := fun h => hval (Or.inr h)
  have hval1 : ¬ ((max_index : Int) + gbase ≤ v.location) :=
    fun h => hval (Or.inl h)
  have hne : ¬ (v.location = -1) := by omega
  refine ⟨?_, ?_, ?_, ?_⟩
  · intro ht hes hamask
    subst ht
    have hslots' : slots = count_attribute_slots v.vtype false := by
      simpa [MESA_SHADER_VERTEX, MESA_SHADER_FRAGMENT] using hslots
    refine ⟨?_, ?_, ?_⟩
    · intro htypes
      simp [aacl_scan_var, aacl_apply_bindings, aacl_overlap_policy,
        aacl_check_aliases, hexp, hidx, hne, hgen, hes, hval, hval1, hloc0,
        ← hslots', ← hattrdef, hrange, hover, hamask, htypes,
        MESA_SHADER_VERTEX, MESA_SHADER_FRAGMENT]
    · intro htypes hcomp
      simp [aacl_scan_var, aacl_apply_bindings, aacl_overlap_policy,
        aacl_check_aliases, hexp, hidx, hne, hgen, hes, hval, hval1, hloc0,
        ← hslots', ← hattrdef, hrange, hover, hamask, htypes, hcomp,
        MESA_SHADER_VERTEX, MESA_SHADER_FRAGMENT]
    · intro htypes hcomp
      simp [aacl_scan_var, aacl_apply_bindings, aacl_overlap_policy,
        aacl_check_aliases, hexp, hidx, hne, hgen, hes, hval, hval1, hloc0,
        ← hslots', ← hattrdef, hrange, hover, hamask, htypes, hcomp,
        MESA_SHADER_VERTEX, MESA_SHADER_FRAGMENT]
  · intro ht hes
    subst ht
    have hslots' : slots = count_attribute_slots v.vtype false := by
      simpa [MESA_SHADER_VERTEX, MESA_SHADER_FRAGMENT] using hslots
    simp [aacl_scan_var, aacl_apply_bindings, aacl_overlap_policy,
      hexp, hidx, hne, hgen, hes, hval, hval1, hloc0,
      ← hslots', ← hattrdef, hrange, hover,
      MESA_SHADER_VERTEX, MESA_SHADER_FRAGMENT]
  · intro ht hes hver
    subst ht
    have hslots' : slots = count_attribute_slots v.vtype true := by
      simpa [MESA_SHADER_VERTEX, MESA_SHADER_FRAGMENT] using hslots
    simp [aacl_scan_var, aacl_apply_bindings, aacl_overlap_policy,
      hexp, hidx, hne, hgen, hes, hver, hval, hval1, hloc0,
      ← hslots', ← hattrdef, hrange, hover,
      MESA_SHADER_VERTEX, MESA_SHADER_FRAGMENT]
  · intro ht hes
    subst ht
    have hslots' : slots = count_attribute_slots v.vtype true := by
      simpa [MESA_SHADER_VERTEX, MESA_SHADER_FRAGMENT] using hslots
    rcases hes with hes | hver
    · constructor
      · simp [aacl_scan_var, aacl_apply_bindings, aacl_overlap_policy,
          hexp, hidx, hne, hgen, hes, hval, hval1, hloc0,
          ← hslots', ← hattrdef, hrange, hover,
          MESA_SHADER_VERTEX, MESA_SHADER_FRAGMENT]
      · simp [linker_warning]
    · constructor
      · have hver' : ¬ (300 ≤ prog.version) := by omega
        simp [aacl_scan_var, aacl_apply_bindings, aacl_overlap_policy,
          hexp, hidx, hne, hgen, hver', hval, hval1, hloc0,
          ← hslots', ← hattrdef, hrange, hover,
          MESA_SHADER_VERTEX, MESA_SHADER_FRAGMENT]
      · simp [linker_warning]

/-- C2 witness: on a desktop-GL (non-ES) fragment stage, a second vec2
output at the already-used location whose components (2-3) are disjoint from
the first output's (0-1) and whose base type matches is permitted: the scan
continues with the program untouched. -/
theorem explicit_overlap_policy_amended_witness :
    aacl_scan_var 4 8 4 ⟨16, 8, 8⟩ [] [] []
      ⟨⟨"", true, 150, false, []⟩, complement32 (2 ^ 8 - 1) ||| 1, 0,
        [⟨"o1", GlslType.base 0 2 false false false "vec2",
          VarMode.shaderOut, true, 4, 0, false, 0, 0, 0, false, false, false,
          false, 0, -1, false, none, false, 0, true, false⟩], []⟩
      ⟨"o2", GlslType.base 0 2 false false false "vec2",
        VarMode.shaderOut, true, 4, 2, false, 0, 0, 0, false, false, false,
        false, 0, -1, false, none, false, 0, true, false⟩ =
    .ok ⟨⟨"", true, 150, false, []⟩,
      (complement32 (2 ^ 8 - 1) ||| 1) ||| ((2 ^ 1 - 1) <<< 0), 0,
      [⟨"o1", GlslType.base 0 2 false false false "vec2",
        VarMode.shaderOut, true, 4, 0, false, 0, 0, 0, false, false, false,
        false, 0, -1, false, none, false, 0, true, false⟩,
       ⟨"o2", GlslType.base 0 2 false false false "vec2",
        VarMode.shaderOut, true, 4, 2, false, 0, 0, 0, false, false, false,
        false, 0, -1, false, none, false, 0, false, false⟩], []⟩ :=
  ((explicit_overlap_policy_amended ⟨"", true, 150, false, []⟩ ⟨16, 8, 8⟩
    4 8 4 (complement32 (2 ^ 8 - 1) ||| 1) 0
    ⟨"o1", GlslType.base 0 2 false false false "vec2",
      VarMode.shaderOut, true, 4, 0, false, 0, 0, 0, false, false, false,
      false, 0, -1, false, none, false, 0, true, false⟩ []
    ⟨"o2", GlslType.base 0 2 false false false "vec2",
      VarMode.shaderOut, true, 4, 2, false, 0, 0, 0, false, false, false,
      false, 0, -1, false, none, false, 0, true, false⟩ 1 0
    rfl rfl (by decide) (by decide) (by decide) (by decide) (by decide)
    (by decide)).1 rfl rfl (by decide)).2.2 rfl (by decide)

end Linker
